import Mathlib

/-!
Verification development for the Luna language core (lexer, parser,
environment, interpreter).  The definitions below are a shallow embedding of
the C/C++ sources: C long long is modelled as Int (signed overflow is C
undefined behaviour and no property here depends on wrap-around), C double is
modelled as Rat (exact arithmetic; no property here depends on rounding), and
undefined behaviour (integer remainder by zero) is modelled by Option.none.
-/

namespace Luna

/-- Error categories of luna_error.h (ErrorType), plus a marker for raw
fprintf(stderr, ...) messages that bypass error_report. -/
inductive LunaErr where
  | errSyntax
  | errRuntime
  | errType
  | errName
  | errIndex
  | errArgument
  | errAssertion
  | rawStderr
deriving DecidableEq, Repr

/-- Binary operator kinds (BinOpKind in luna/ast.h). -/
inductive BinOpKind where
  | opAdd
  | opSub
  | opMul
  | opDiv
  | opMod
  | opEq
  | opNeq
  | opLt
  | opGt
  | opLte
  | opGte
  | opAnd
  | opOr
deriving DecidableEq, Repr

/-- Runtime values (struct Value in luna/value.h).  A native function value
carries an index into a table of native behaviours supplied to the
interpreter; a file value carries only its open/closed status (the FILE
pointer itself has no further observable structure in the core). -/
inductive Value where
  | vint (i : Int)
  | vfloat (f : Rat)
  | vstring (s : String)
  | vchar (c : Int)
  | vbool (b : Bool)
  | vlist (items : List Value)
  | vnative (idx : Nat)
  | vfile (isOpen : Bool)
  | vnull

/-- Truthiness (is_truthy in interpreter.cpp). -/
def is_truthy : Value → Bool
  | .vbool b => b
  | .vint i => i ≠ 0
  | .vfloat f => f ≠ 0
  | .vstring s => s ≠ ""
  | .vnull => false
  | .vlist _ => true
  | .vnative _ => true
  | .vchar c => c ≠ 0
  | .vfile isOpen => isOpen

/-- Tolerance for float comparison (EPSILON in interpreter.cpp, 0.000001). -/
def EPSILON : Rat := 1 / 1000000

/-- C cast of a double to long long: truncation toward zero. -/
def ratTrunc (q : Rat) : Int :=
  if q < 0 then -(Int.floor (-q)) else Int.floor q

/-- The double view of a numeric operand in the mixed path of eval_binop
((l.type == VAL_INT) ? (double)l.i : l.f). -/
def toF : Value → Rat
  | .vint i => (i : Rat)
  | .vfloat f => f
  | _ => 0

/-- Is the value VAL_INT or VAL_FLOAT? -/
def isNum : Value → Bool
  | .vint _ => true
  | .vfloat _ => true
  | _ => false

/-- Placeholder for C snprintf "%.6g" double formatting in value_to_string.
No claim depends on the digit-level rendering of floats, so the Rat is shown
in num/den form. -/
def formatFloat (q : Rat) : String :=
  toString q

/-- String join helper used by the list case of value_to_string. -/
def joinSep (sep : String) : List String → String
  | [] => ""
  | [s] => s
  | s :: rest => s ++ sep ++ joinSep sep rest

mutual

/-- value_to_string in value.cpp.  The char case writes the byte with %c;
negative char values are rendered via toNat (no claim depends on it). -/
def value_to_string : Value → String
  | .vint i => toString i
  | .vfloat f => formatFloat f
  | .vbool b => if b then "true" else "false"
  | .vchar c => String.singleton (Char.ofNat c.toNat)
  | .vnative _ => "<native function>"
  | .vfile isOpen => if isOpen then "<file handle>" else "<closed file>"
  | .vstring s => s
  | .vlist items => "[" ++ joinSep ", " (valueListStrings items) ++ "]"
  | .vnull => "null"

/-- Renders each list element (the loop in the VAL_LIST case of
value_to_string). -/
def valueListStrings : List Value → List String
  | [] => []
  | v :: rest => value_to_string v :: valueListStrings rest

end

/-- get_val in vec_lib.cpp: numeric payload of a list element, else 0. -/
def vecGetVal : Value → Rat
  | .vint i => (i : Rat)
  | .vfloat f => f
  | _ => 0

/-- vec_op_direct in vec_lib.cpp: element-wise operation over the common
prefix of two lists, producing floats.  The per-element operation is passed
in; division maps a zero divisor element to 0.0 (the C fallback
implementation, which the assembly kernels reproduce). -/
def vec_op_direct (a b : Value) (op : Rat → Rat → Rat) : Value :=
  match a, b with
  | .vlist la, .vlist lb =>
    .vlist ((List.zip la lb).map fun p => .vfloat (op (vecGetVal p.1) (vecGetVal p.2)))
  | _, _ => .vnull

def vec_add_values (a b : Value) : Value := vec_op_direct a b (· + ·)
def vec_sub_values (a b : Value) : Value := vec_op_direct a b (· - ·)
def vec_mul_values (a b : Value) : Value := vec_op_direct a b (· * ·)
def vec_div_values (a b : Value) : Value :=
  vec_op_direct a b (fun x y => if y = 0 then 0 else x / y)

/-- The mixed/float arithmetic path of eval_binop in interpreter.cpp
(both operands numeric, not both VAL_INT — plus the fall-through from the
pure-integer switch for OP_AND/OP_OR).  OP_MOD casts both operands to
long long and takes the C remainder; a zero divisor there is C undefined
behaviour, modelled as none.  The switch default leaves res = 0 and
is_res_float = 1, so unhandled operators yield float 0. -/
def evalBinopMixed (op : BinOpKind) (dl dr : Rat) : Option Value :=
  match op with
  | .opAdd => some (.vfloat (dl + dr))
  | .opSub => some (.vfloat (dl - dr))
  | .opMul => some (.vfloat (dl * dr))
  | .opDiv => some (.vfloat (if dr = 0 then 0 else dl / dr))
  | .opMod =>
    if ratTrunc dr = 0 then none
    else some (.vint (Int.tmod (ratTrunc dl) (ratTrunc dr)))
  | .opEq => some (.vbool (|dl - dr| < EPSILON))
  | .opNeq => some (.vbool (|dl - dr| ≥ EPSILON))
  | .opLt => some (.vbool (dl < dr))
  | .opGt => some (.vbool (dl > dr))
  | .opLte => some (.vbool (dl ≤ dr))
  | .opGte => some (.vbool (dl ≥ dr))
  | _ => some (.vfloat 0)

/-- The non-numeric tail of eval_binop: string equality, bool/null equality,
char equality, string concatenation, list-list vector arithmetic, and the
silent null fallback.  Match arms are ordered exactly as the C blocks. -/
def evalBinopRest (op : BinOpKind) (l r : Value) : Value :=
  match op, l, r with
  | .opEq, .vstring ls, .vstring rs => .vbool (ls = rs)
  | .opNeq, .vstring ls, .vstring rs => .vbool (ls ≠ rs)
  | .opEq, .vbool lb, .vbool rb => .vbool (lb = rb)
  | .opEq, .vnull, .vnull => .vbool true
  | .opEq, .vnull, _ => .vbool false
  | .opEq, _, .vnull => .vbool false
  | .opNeq, .vbool lb, .vbool rb => .vbool (lb ≠ rb)
  | .opNeq, .vnull, .vnull => .vbool false
  | .opNeq, .vnull, _ => .vbool true
  | .opNeq, _, .vnull => .vbool true
  | .opEq, .vchar lc, .vchar rc => .vbool (lc = rc)
  | .opNeq, .vchar lc, .vchar rc => .vbool (lc ≠ rc)
  | .opAdd, .vstring ls, rv => .vstring (ls ++ value_to_string rv)
  | .opAdd, lv, .vstring rs => .vstring (value_to_string lv ++ rs)
  | .opAdd, .vlist la, .vlist lb => vec_add_values (.vlist la) (.vlist lb)
  | .opSub, .vlist la, .vlist lb => vec_sub_values (.vlist la) (.vlist lb)
  | .opMul, .vlist la, .vlist lb => vec_mul_values (.vlist la) (.vlist lb)
  | .opDiv, .vlist la, .vlist lb => vec_div_values (.vlist la) (.vlist lb)
  | _, _, _ => .vnull

/-- eval_binop in interpreter.cpp.  Pure-integer operations first (with the
explicit divide-by-zero guard returning integer 0 for OP_DIV but no guard at
all for OP_MOD, whose zero-divisor case is C undefined behaviour, modelled as
none), then the mixed/float path for any other numeric pair, then the
non-numeric tail. -/
def eval_binop (op : BinOpKind) (l r : Value) : Option Value :=
  match l, r with
  | .vint li, .vint ri =>
    match op with
    | .opAdd => some (.vint (li + ri))
    | .opSub => some (.vint (li - ri))
    | .opMul => some (.vint (li * ri))
    | .opDiv =>
      if ri = 0 then some (.vint 0)
      else some (.vfloat ((li : Rat) / (ri : Rat)))
    | .opMod => if ri = 0 then none else some (.vint (Int.tmod li ri))
    | .opEq => some (.vbool (li = ri))
    | .opNeq => some (.vbool (li ≠ ri))
    | .opLt => some (.vbool (li < ri))
    | .opGt => some (.vbool (li > ri))
    | .opLte => some (.vbool (li ≤ ri))
    | .opGte => some (.vbool (li ≥ ri))
    | _ => evalBinopMixed op (li : Rat) (ri : Rat)
  | _, _ =>
    if isNum l && isNum r then evalBinopMixed op (toF l) (toF r)
    else some (evalBinopRest op l r)

/-- AST nodes (AstNode in luna/ast.h, one constructor per NodeKind).
NODE_CASE nodes appear only inside a switch and are modelled as a pair
(value, body).  Source positions (line numbers) are diagnostic metadata and
are not carried.  A NULL expression pointer (optional let initializer,
bare return) is modelled with Option. -/
inductive AstNode where
  | num (v : Int)
  | flt (v : Rat)
  | strLit (s : String)
  | charLit (c : Int)
  | boolLit (b : Bool)
  | listLit (items : List AstNode)
  | ident (name : String)
  | binop (op : BinOpKind) (left right : AstNode)
  | letStmt (name : String) (expr : Option AstNode)
  | assign (name : String) (expr : AstNode)
  | assignIndex (target index value : AstNode)
  | printStmt (args : List AstNode)
  | inputExpr (prompt : String)
  | inc (name : String)
  | dec (name : String)
  | notE (expr : Option AstNode)
  | ifStmt (cond : AstNode) (thenBlock elseBlock : List AstNode)
  | whileStmt (cond : AstNode) (body : List AstNode)
  | forStmt (finit cond incr : AstNode) (body : List AstNode)
  | breakStmt
  | continueStmt
  | switchStmt (expr : AstNode) (cases : List (AstNode × List AstNode))
      (defaultCase : List AstNode)
  | block (items : List AstNode)
  | group (items : List AstNode)
  | call (name : String) (args : List AstNode)
  | indexE (target index : AstNode)
  | funcDef (name : String) (params : List String) (body : List AstNode)
  | ret (expr : Option AstNode)

/-- A stored function definition: parameter names and body
(FuncDefNode fields used by the call machinery). -/
abbrev FuncDef := List String × List AstNode

/-- One lexical scope (struct Env in env.cpp): a variable table and a
function table, each bounded (MAX_VARS = 256, MAX_FUNCS = 64) and kept in
insertion order. -/
structure Scope where
  vars : List (String × Value)
  funcs : List (String × FuncDef)

/-- The empty scope produced by env_create. -/
def emptyScope : Scope := ⟨[], []⟩

/-- MAX_VARS in env.cpp. -/
def MAX_VARS : Nat := 256
/-- MAX_FUNCS in env.cpp. -/
def MAX_FUNCS : Nat := 64

/-- Backwards search of an insertion-ordered table (the i = count-1 .. 0
loops of env_get / env_assign): the most recently inserted match wins. -/
def lookupBack {α : Type} : List (String × α) → String → Option α
  | [], _ => none
  | (k, v) :: rest, n =>
    match lookupBack rest n with
    | some r => some r
    | none => if k = n then some v else none

/-- Overwrite the most recently inserted binding of a name; none if the
name is absent (the inner loop of env_assign, and writes through the
pointer returned by env_get). -/
def setBack : List (String × Value) → String → Value → Option (List (String × Value))
  | [], _, _ => none
  | (k, v0) :: rest, n, v =>
    match setBack rest n v with
    | some rest2 => some ((k, v0) :: rest2)
    | none => if k = n then some ((k, v) :: rest) else none

/-- env_get in env.cpp: walk the scope chain outward; in each scope the
most recently declared binding wins (shadowing). -/
def env_get : List Scope → String → Option Value
  | [], _ => none
  | s :: parents, n =>
    match lookupBack s.vars n with
    | some v => some v
    | none => env_get parents n

/-- A write through the pointer env_get returns: update the binding that
env_get would find; leave the chain unchanged if the name is absent. -/
def env_set : List Scope → String → Value → List Scope
  | [], _, _ => []
  | s :: parents, n, v =>
    match setBack s.vars n v with
    | some vars2 => { s with vars := vars2 } :: parents
    | none => s :: env_set parents n v

/-- env_def in env.cpp: always insert a new binding in the current
(innermost) scope, unless the scope's fixed table is full. -/
def env_def : List Scope → String → Value → List Scope
  | [], _, _ => []
  | s :: parents, n, v =>
    (if s.vars.length < MAX_VARS then { s with vars := s.vars ++ [(n, v)] } else s)
      :: parents

/-- env_assign in env.cpp: search the chain for the most recent binding and
overwrite it (deep copy in C, the value itself here); none when the name is
bound nowhere, in which case the C code reports a Name error and changes
nothing. -/
def env_assign : List Scope → String → Value → Option (List Scope)
  | [], _, _ => none
  | s :: parents, n, v =>
    match setBack s.vars n v with
    | some vars2 => some ({ s with vars := vars2 } :: parents)
    | none =>
      match env_assign parents n v with
      | some parents2 => some (s :: parents2)
      | none => none

/-- env_def_func in env.cpp. -/
def env_def_func : List Scope → String → FuncDef → List Scope
  | [], _, _ => []
  | s :: parents, n, d =>
    (if s.funcs.length < MAX_FUNCS then { s with funcs := s.funcs ++ [(n, d)] } else s)
      :: parents

/-- env_get_func in env.cpp: walk the chain; in each scope the loop runs
forward, so the oldest binding of the name wins within a scope. -/
def env_get_func : List Scope → String → Option FuncDef
  | [], _ => none
  | s :: parents, n =>
    match s.funcs.find? (fun p => p.1 == n) with
    | some p => some p.2
    | none => env_get_func parents n

/-- Read a nested list slot: follow a path of indices from a root value
(dereferencing the pointer produced by get_mutable_value). -/
def readSub : List Nat → Value → Option Value
  | [], v => some v
  | k :: rest, .vlist items => (items[k]?).bind (readSub rest)
  | _ :: _, _ => none

/-- Write a nested list slot along a path of indices; unchanged when the
path is invalid. -/
def writeSub : List Nat → Value → Value → Value
  | [], _, v => v
  | k :: rest, .vlist items, v =>
    match items[k]? with
    | some x => .vlist (items.set k (writeSub rest x v))
    | none => .vlist items
  | _ :: _, w, _ => w

/-- A mutable location (the pointer returned by get_mutable_value): a
variable name plus a path of list indices below it. -/
abbrev MutPath := String × List Nat

/-- Dereference a mutable location in the current environment. -/
def readPath (env : List Scope) (p : MutPath) : Option Value :=
  (env_get env p.1).bind (readSub p.2)

/-- Write through a mutable location; unchanged when it is invalid. -/
def writePath (env : List Scope) (p : MutPath) (v : Value) : List Scope :=
  match env_get env p.1 with
  | some root => env_set env p.1 (writeSub p.2 root v)
  | none => env

/-- Control-flow flags (the ReturnException / LoopException globals of
interpreter.cpp, reset by interpret). -/
structure Flags where
  retActive : Bool
  retValue : Value
  breakActive : Bool
  contActive : Bool

/-- All flags clear, as after interpret's reset. -/
def clearFlags : Flags := ⟨false, .vnull, false, false⟩

/-- Interpreter state: the scope chain (innermost first), the control-flow
flags, the stdout stream (one entry per printf), the remaining stdin lines,
the reported diagnostics, and an undefined-behaviour marker (set when the
embedding reaches C undefined behaviour such as % by zero). -/
structure State where
  env : List Scope
  flags : Flags
  output : List String
  inputLines : List String
  errors : List LunaErr
  ub : Bool

/-- error_report: append a diagnostic. -/
def report (k : LunaErr) (st : State) : State :=
  { st with errors := st.errors ++ [k] }

/-- env_create(e): push a fresh child scope. -/
def pushScope (st : State) : State :=
  { st with env := emptyScope :: st.env }

/-- env_free(scope): pop the innermost scope. -/
def popScope (st : State) : State :=
  { st with env := st.env.tail }

/-- Table of native function behaviours (the C function pointers reached
through VAL_NATIVE values): each native maps the argument vector to a result
together with the post-call values of the arguments — this models in-place
mutation of argument storage.  The repository's mutating natives (sort,
shuffle in list_lib.c) permute list elements in place, preserving length. -/
abbrev NativeTable := List (List Value → Value × List Value)

/-- Look up a native behaviour; an index outside the table behaves as an
argument-preserving no-op (unreachable for states built by the embedding). -/
def nativeAt (nt : NativeTable) (k : Nat) : List Value → Value × List Value :=
  match nt[k]? with
  | some f => f
  | none => fun args => (.vnull, args)

/-- Models C atoll (used by the int() built-in on strings): skip leading
whitespace, optional sign, longest digit prefix; no digits gives 0.
Overflow clamping is not modelled (no claim depends on it). -/
def atoll (s : String) : Int :=
  let ws : Char → Bool := fun c =>
    c = ' ' || c = '\t' || c = '\n' || c = '\r' || c = '\x0b' || c = '\x0c'
  let cs := s.data.dropWhile ws
  let sgncs : Int × List Char :=
    match cs with
    | '-' :: rest => (-1, rest)
    | '+' :: rest => (1, rest)
    | _ => (1, cs)
  sgncs.1 * ((sgncs.2.takeWhile Char.isDigit).foldl (fun a c => a * 10 + (c.toNat - 48)) 0 : Nat)

/-- Models C atof (used by the float() built-in on strings): skip leading
whitespace, optional sign, digits, optional fraction.  Exponent notation is
not modelled (no claim depends on it). -/
def atof (s : String) : Rat :=
  let ws : Char → Bool := fun c =>
    c = ' ' || c = '\t' || c = '\n' || c = '\r' || c = '\x0b' || c = '\x0c'
  let cs := s.data.dropWhile ws
  let sgncs : Rat × List Char :=
    match cs with
    | '-' :: rest => (-1, rest)
    | '+' :: rest => (1, rest)
    | _ => (1, cs)
  let intDigits := sgncs.2.takeWhile Char.isDigit
  let rest := sgncs.2.dropWhile Char.isDigit
  let ipart : Nat := intDigits.foldl (fun a c => a * 10 + (c.toNat - 48)) 0
  let fpart : Rat :=
    match rest with
    | '.' :: fs =>
      let fd := fs.takeWhile Char.isDigit
      ((fd.foldl (fun a c => a * 10 + (c.toNat - 48)) 0 : Nat) : Rat) / ((10 : Rat) ^ fd.length)
    | _ => 0
  sgncs.1 * ((ipart : Rat) + fpart)

/-- INT_MAX used by the type() built-in to label int vs long. -/
def INT_MAX : Int := 2147483647
/-- INT_MIN used by the type() built-in. -/
def INT_MIN : Int := -2147483648

/-- The type() built-in's name for a value (the switch in the NODE_CALL
type branch; VAL_FILE has no case there, so files keep "unknown"). -/
def typeName : Value → String
  | .vint i => if i > INT_MAX || i < INT_MIN then "long" else "int"
  | .vfloat _ => "float"
  | .vstring _ => "string"
  | .vchar _ => "char"
  | .vbool _ => "boolean"
  | .vlist _ => "list"
  | .vnative _ => "native_function"
  | .vnull => "null"
  | .vfile _ => "unknown"

/-- The int() built-in's conversion of an evaluated argument. -/
def intConv : Value → Int
  | .vstring s => atoll s
  | .vfloat f => ratTrunc f
  | .vint i => i
  | .vbool b => if b then 1 else 0
  | .vchar c => c
  | _ => 0

/-- The float() built-in's conversion of an evaluated argument (chars are
not handled there and give 0.0). -/
def floatConv : Value → Rat
  | .vstring s => atof s
  | .vint i => (i : Rat)
  | .vfloat f => f
  | .vbool b => if b then 1 else 0
  | _ => 0

/-- The len() built-in's measurement of an evaluated argument. -/
def lenOf : Value → Int
  | .vstring s => (s.length : Int)
  | .vlist items => (items.length : Int)
  | _ => 0

/-- The writeback step of a native call: an argument passed by reference
(a bare identifier bound to a list) receives the native's post-call value
of that argument — the C native mutated the shared element storage in
place.  Copied arguments are discarded. -/
def write_native_refs (env : List Scope) : List (Option String) → List Value → List Scope
  | [], _ => env
  | _ :: _, [] => env
  | r :: rrest, v :: vrest =>
    match r with
    | some x => write_native_refs (env_set env x v) rrest vrest
    | none => write_native_refs env rrest vrest

/-- The case comparison of exec_stmt's NODE_SWITCH: exact equality on
matching types (int, float, string, bool, char), exact int/float
cross-comparison (the C comparison promotes the int to double), and no
match for anything else — in particular no epsilon tolerance and no
null-null match. -/
def case_eq : Value → Value → Bool
  | .vint a, .vint b => a = b
  | .vfloat a, .vfloat b => a = b
  | .vstring a, .vstring b => a = b
  | .vbool a, .vbool b => a = b
  | .vchar a, .vchar b => a = b
  | .vint a, .vfloat b => (a : Rat) = b
  | .vfloat a, .vint b => a = (b : Rat)
  | _, _ => false

mutual

/-- eval_expr in interpreter.cpp.  Fuel bounds the recursion depth (the C
code recurses on the host stack with no guard); every recursive step costs
one unit, and exhausted fuel returns null leaving the state unchanged. -/
def eval_expr (nt : NativeTable) : Nat → State → AstNode → Value × State
  | 0, st, _ => (.vnull, st)
  | f + 1, st, n =>
    match n with
    | .num v => (.vint v, st)
    | .flt v => (.vfloat v, st)
    | .strLit s => (.vstring s, st)
    | .charLit c => (.vchar c, st)
    | .boolLit b => (.vbool b, st)
    | .listLit items =>
      let r := eval_list_items nt f st items
      (.vlist r.1, r.2)
    | .ident name =>
      match env_get st.env name with
      | some v => (v, st)
      | none => (.vnull, st)
    | .binop op l r =>
      match op with
      | .opAnd =>
        let lv := eval_expr nt f st l
        if is_truthy lv.1 then eval_expr nt f lv.2 r else lv
      | .opOr =>
        let lv := eval_expr nt f st l
        if is_truthy lv.1 then lv else eval_expr nt f lv.2 r
      | _ =>
        let lv := eval_expr nt f st l
        let rv := eval_expr nt f lv.2 r
        match eval_binop op lv.1 rv.1 with
        | some v => (v, rv.2)
        | none => (.vnull, { rv.2 with ub := true })
    | .notE e =>
      let v := eval_expr_opt nt f st e
      (.vbool (!is_truthy v.1), v.2)
    | .indexE target index =>
      let tv := eval_expr nt f st target
      let iv := eval_expr nt f tv.2 index
      match tv.1, iv.1 with
      | .vlist items, .vint k =>
        if 0 ≤ k ∧ k < (items.length : Int) then
          match items[k.toNat]? with
          | some x => (x, iv.2)
          | none => (.vnull, iv.2)
        else (.vnull, iv.2)
      | _, _ => (.vnull, iv.2)
    | .inc name =>
      match env_get st.env name with
      | some (.vint i) => (.vint i, { st with env := env_set st.env name (.vint (i + 1)) })
      | some (.vfloat x) => (.vfloat x, { st with env := env_set st.env name (.vfloat (x + 1)) })
      | _ => (.vnull, st)
    | .dec name =>
      match env_get st.env name with
      | some (.vint i) => (.vint i, { st with env := env_set st.env name (.vint (i - 1)) })
      | some (.vfloat x) => (.vfloat x, { st with env := env_set st.env name (.vfloat (x - 1)) })
      | _ => (.vnull, st)
    | .call name args =>
      -- Built-in: len()
      if name = "len" ∧ args.length = 1 then
        let v := eval_expr nt f st (args.headD .breakStmt)
        (.vint (lenOf v.1), v.2)
      -- Built-in: append(list, value)
      else if name = "append" then
        if args.length ≠ 2 then
          (.vnull, report .rawStderr st)
        else
          let pr := get_mutable_value nt f st (args.headD .breakStmt)
          let item := eval_expr nt f pr.2 ((args.drop 1).headD .breakStmt)
          match pr.1 with
          | some p =>
            match readPath item.2.env p with
            | some (.vlist items) =>
              (.vnull, { item.2 with env := writePath item.2.env p (.vlist (items ++ [item.1])) })
            | _ => (.vnull, report .errArgument item.2)
          | none => (.vnull, report .errArgument item.2)
      -- Built-in: type()
      else if name = "type" ∧ args.length = 1 then
        let v := eval_expr nt f st (args.headD .breakStmt)
        (.vstring (typeName v.1), v.2)
      -- Built-in: int()
      else if name = "int" ∧ args.length = 1 then
        let v := eval_expr nt f st (args.headD .breakStmt)
        (.vint (intConv v.1), v.2)
      -- Built-in: float()
      else if name = "float" ∧ args.length = 1 then
        let v := eval_expr nt f st (args.headD .breakStmt)
        (.vfloat (floatConv v.1), v.2)
      else
        -- 1. user-defined function (env_get_func)
        match env_get_func st.env name with
        | some fd =>
          let bound := bind_params nt f st fd.1 args emptyScope
          let st1 : State := { bound.2 with env := bound.1 :: bound.2.env }
          let st2 := run_func_body nt f st1 fd.2
          let retv := if st2.flags.retActive then st2.flags.retValue else .vnull
          let st3 : State :=
            { st2 with
              flags := { st2.flags with retActive := false }
              env := st2.env.tail }
          (retv, st3)
        | none =>
          -- 2. native function found via ordinary variable lookup
          match env_get st.env name with
          | some (.vnative k) =>
            let packed := eval_native_args nt f st args
            let res := nativeAt nt k (packed.1.map Prod.snd)
            let env2 := write_native_refs packed.2.env (packed.1.map Prod.fst) res.2
            (res.1, { packed.2 with env := env2 })
          | _ => (.vnull, st)
    | .inputExpr prompt =>
      let st1 := if prompt ≠ "" then { st with output := st.output ++ [prompt] } else st
      match st1.inputLines with
      | line :: rest => (.vstring line, { st1 with inputLines := rest })
      | [] => (.vstring "", st1)
    | _ => (.vnull, st)

/-- The loop of the NODE_LIST case: evaluate items left to right and
collect the values. -/
def eval_list_items (nt : NativeTable) : Nat → State → List AstNode → List Value × State
  | 0, st, _ => ([], st)
  | f + 1, st, items =>
    match items with
    | [] => ([], st)
    | e :: rest =>
      let v := eval_expr nt f st e
      let r := eval_list_items nt f v.2 rest
      (v.1 :: r.1, r.2)

/-- eval_expr on a possibly-NULL node (eval_expr(e, NULL) returns null). -/
def eval_expr_opt (nt : NativeTable) : Nat → State → Option AstNode → Value × State
  | 0, st, _ => (.vnull, st)
  | f + 1, st, n =>
    match n with
    | some e => eval_expr nt f st e
    | none => (.vnull, st)

/-- get_mutable_value in interpreter.cpp: resolve an identifier or nested
index expression to a mutable location.  The parent is resolved and
type-checked first, the index expression is evaluated afterwards (with its
side effects), and the bounds check dereferences the location again; an
out-of-bounds index reports an Index error. -/
def get_mutable_value (nt : NativeTable) : Nat → State → AstNode → Option MutPath × State
  | 0, st, _ => (none, st)
  | f + 1, st, n =>
    match n with
    | .ident name =>
      match env_get st.env name with
      | some _ => (some ((name, []) : String × List Nat), st)
      | none => (none, st)
    | .indexE target index =>
      let pr := get_mutable_value nt f st target
      match pr.1 with
      | none => (none, pr.2)
      | some p =>
        match readPath pr.2.env p with
        | some (.vlist _) =>
          let iv := eval_expr nt f pr.2 index
          match iv.1 with
          | .vint k =>
            match readPath iv.2.env p with
            | some (.vlist items2) =>
              if 0 ≤ k ∧ k < (items2.length : Int) then
                (some ((p.1, p.2 ++ [k.toNat]) : String × List Nat), iv.2)
              else (none, report .errIndex iv.2)
            | _ => (none, report .errIndex iv.2)
          | _ => (none, iv.2)
        | _ => (none, pr.2)
    | _ => (none, st)

/-- The parameter-binding loop of a user-function call: for each parameter,
evaluate the corresponding argument in the caller's environment (null when
missing) and env_def it into the fresh call scope.  Arguments beyond the
parameter list are not evaluated. -/
def bind_params (nt : NativeTable) : Nat → State → List String → List AstNode → Scope →
    Scope × State
  | 0, st, _, _, sc => (sc, st)
  | f + 1, st, params, args, sc =>
    match params with
    | [] => (sc, st)
    | p :: prest =>
      let v : Value × State :=
        match args with
        | [] => (.vnull, st)
        | a :: _ => eval_expr nt f st a
      let sc2 : Scope :=
        if sc.vars.length < MAX_VARS then { sc with vars := sc.vars ++ [(p, v.1)] } else sc
      bind_params nt f v.2 prest (args.drop 1) sc2

/-- The function-body loop of a user-function call: statements run until a
return is pending (break/continue do not stop this loop). -/
def run_func_body (nt : NativeTable) : Nat → State → List AstNode → State
  | 0, st, _ => st
  | f + 1, st, body =>
    match body with
    | [] => st
    | s :: rest =>
      let st1 := exec_stmt nt f st s
      if st1.flags.retActive then st1 else run_func_body nt f st1 rest

/-- The argument-evaluation loop of a native call: a bare identifier
currently bound to a list is passed by reference (the ref name is
remembered for the post-call writeback); every other argument is evaluated
by value. -/
def eval_native_args (nt : NativeTable) : Nat → State → List AstNode →
    List (Option String × Value) × State
  | 0, st, _ => ([], st)
  | f + 1, st, args =>
    match args with
    | [] => ([], st)
    | a :: rest =>
      let packed : (Option String × Value) × State :=
        match a with
        | .ident x =>
          match env_get st.env x with
          | some (.vlist l) => ((some x, .vlist l), st)
          | _ =>
            let v := eval_expr nt f st a
            ((none, v.1), v.2)
        | _ =>
          let v := eval_expr nt f st a
          ((none, v.1), v.2)
      let r := eval_native_args nt f packed.2 rest
      (packed.1 :: r.1, r.2)

/-- exec_stmt in interpreter.cpp (the C function returns a Value that is
always null; only the state matters). -/
def exec_stmt (nt : NativeTable) : Nat → State → AstNode → State
  | 0, st, _ => st
  | f + 1, st, n =>
    match n with
    | .letStmt name e =>
      let v := eval_expr_opt nt f st e
      { v.2 with env := env_def v.2.env name v.1 }
    | .assign name e =>
      let v := eval_expr nt f st e
      match env_assign v.2.env name v.1 with
      | some env2 => { v.2 with env := env2 }
      | none => report .errName v.2
    | .assignIndex target index value =>
      let v := eval_expr nt f st value
      let pr := get_mutable_value nt f v.2 target
      match pr.1 with
      | none => report .errType pr.2
      | some p =>
        match readPath pr.2.env p with
        | some (.vlist _) =>
          let iv := eval_expr nt f pr.2 index
          match iv.1 with
          | .vint k =>
            match readPath iv.2.env p with
            | some (.vlist items2) =>
              if 0 ≤ k ∧ k < (items2.length : Int) then
                { iv.2 with env := writePath iv.2.env (p.1, p.2 ++ [k.toNat]) v.1 }
              else report .errIndex iv.2
            | _ => report .errIndex iv.2
          | _ => report .errType iv.2
        | _ => report .errType pr.2
    | .printStmt args =>
      let st1 := print_args nt f st args
      { st1 with output := st1.output ++ ["\n"] }
    | .ifStmt cond thenB elseB =>
      let c := eval_expr nt f st cond
      let blockStmts := if is_truthy c.1 then thenB else elseB
      let st1 := pushScope c.2
      let st2 := exec_block_stmts nt f st1 blockStmts
      popScope st2
    | .whileStmt cond body =>
      exec_while nt f st cond body
    | .forStmt finit cond incr body =>
      let st1 := pushScope st
      let st2 := exec_stmt nt f st1 finit
      let st3 := exec_for_loop nt f st2 cond incr body
      popScope st3
    | .switchStmt subject cases defaultCase =>
      let v := eval_expr nt f st subject
      let r := switch_cases nt f v.2 v.1 cases
      if !r.1 ∧ defaultCase.length > 0 then
        let st1 := pushScope r.2
        let st2 := exec_block_stmts nt f st1 defaultCase
        let st3 := popScope st2
        { st3 with flags := { st3.flags with breakActive := false } }
      else r.2
    | .block items =>
      let st1 := pushScope st
      let st2 := exec_block_stmts nt f st1 items
      popScope st2
    | .group items =>
      exec_block_stmts nt f st items
    | .funcDef name params body =>
      { st with env := env_def_func st.env name ((params, body) : FuncDef) }
    | .ret e =>
      let v := eval_expr_opt nt f st e
      { v.2 with flags := { v.2.flags with retActive := true, retValue := v.1 } }
    | .breakStmt =>
      { st with flags := { st.flags with breakActive := true } }
    | .continueStmt =>
      { st with flags := { st.flags with contActive := true } }
    | _ =>
      let v := eval_expr nt f st n
      v.2

/-- The print loop of NODE_PRINT: each argument is stringified and written
with printf("%s "). -/
def print_args (nt : NativeTable) : Nat → State → List AstNode → State
  | 0, st, _ => st
  | f + 1, st, args =>
    match args with
    | [] => st
    | a :: rest =>
      let v := eval_expr nt f st a
      print_args nt f { v.2 with output := v.2.output ++ [value_to_string v.1 ++ " "] } rest

/-- A statement-list loop that stops as soon as any control-flow signal is
pending (the bodies of if, while, for, switch cases, default, blocks and
groups all use this check). -/
def exec_block_stmts (nt : NativeTable) : Nat → State → List AstNode → State
  | 0, st, _ => st
  | f + 1, st, body =>
    match body with
    | [] => st
    | s :: rest =>
      let st1 := exec_stmt nt f st s
      if st1.flags.retActive || st1.flags.breakActive || st1.flags.contActive then st1
      else exec_block_stmts nt f st1 rest

/-- The while loop of exec_stmt: test the condition, run the body in a
fresh child scope, then consume Break (stop) or Continue (next iteration);
a pending Return stops the loop without being consumed. -/
def exec_while (nt : NativeTable) : Nat → State → AstNode → List AstNode → State
  | 0, st, _, _ => st
  | f + 1, st, cond, body =>
    let c := eval_expr nt f st cond
    if !is_truthy c.1 then c.2
    else
      let st1 := pushScope c.2
      let st2 := exec_block_stmts nt f st1 body
      let st3 := popScope st2
      if st3.flags.retActive then st3
      else if st3.flags.breakActive then
        { st3 with flags := { st3.flags with breakActive := false } }
      else
        let st4 :=
          if st3.flags.contActive then
            { st3 with flags := { st3.flags with contActive := false } }
          else st3
        exec_while nt f st4 cond body

/-- The iteration loop of exec_stmt's NODE_FOR (the loop-variable scope is
already pushed): test the condition, run the body in an inner scope, handle
Break/Continue, run the increment, repeat. -/
def exec_for_loop (nt : NativeTable) : Nat → State → AstNode → AstNode → List AstNode → State
  | 0, st, _, _, _ => st
  | f + 1, st, cond, incr, body =>
    let c := eval_expr nt f st cond
    if !is_truthy c.1 then c.2
    else
      let st1 := pushScope c.2
      let st2 := exec_block_stmts nt f st1 body
      let st3 := popScope st2
      if st3.flags.retActive then st3
      else if st3.flags.breakActive then
        { st3 with flags := { st3.flags with breakActive := false } }
      else
        let st4 :=
          if st3.flags.contActive then
            { st3 with flags := { st3.flags with contActive := false } }
          else st3
        let st5 := exec_stmt nt f st4 incr
        exec_for_loop nt f st5 cond incr body

/-- The case-matching loop of exec_stmt's NODE_SWITCH: evaluate each case
value in source order; on the first match run that case's body in a fresh
child scope, consume a pending Break, and stop scanning (no fallthrough).
Returns the matched flag together with the final state. -/
def switch_cases (nt : NativeTable) : Nat → State → Value → List (AstNode × List AstNode) →
    Bool × State
  | 0, st, _, _ => (false, st)
  | f + 1, st, v, cases =>
    match cases with
    | [] => (false, st)
    | (cvalExpr, body) :: rest =>
      let cv := eval_expr nt f st cvalExpr
      if case_eq v cv.1 then
        let st1 := pushScope cv.2
        let st2 := exec_block_stmts nt f st1 body
        let st3 := popScope st2
        (true, { st3 with flags := { st3.flags with breakActive := false } })
      else switch_cases nt f cv.2 v rest

end

/-- The top-level statement loop of interpret (runs every statement, with
no control-flow checks between them). -/
def interp_top (nt : NativeTable) : Nat → State → List AstNode → State
  | _, st, [] => st
  | fuel, st, s :: rest => interp_top nt fuel (exec_stmt nt fuel st s) rest

/-- interpret in interpreter.cpp: reset the control-flow flags and execute
the top-level block's statements in the given environment (no stop checks
at top level). -/
def interpret (nt : NativeTable) (fuel : Nat) (st : State) (prog : AstNode) : State :=
  let st0 : State := { st with flags := clearFlags }
  match prog with
  | .block items => interp_top nt fuel st0 items
  | _ => exec_stmt nt fuel st0 prog

/-- The user-defined-function call path of eval_expr's NODE_CALL (argument
binding in the caller's environment, fresh call scope, body until return,
scope popped, return flag consumed). -/
def run_user_call (nt : NativeTable) (f : Nat) (st : State) (fd : FuncDef)
    (args : List AstNode) : Value × State :=
  let bound := bind_params nt f st fd.1 args emptyScope
  let st1 : State := { bound.2 with env := bound.1 :: bound.2.env }
  let st2 := run_func_body nt f st1 fd.2
  let retv := if st2.flags.retActive then st2.flags.retValue else .vnull
  (retv,
    { st2 with
      flags := { st2.flags with retActive := false }
      env := st2.env.tail })

/-- The two-argument body of the append built-in in eval_expr's NODE_CALL:
resolve the first argument to a mutable location, evaluate the second,
append a copy when the location holds a list, else report an Argument
error; the call itself returns null. -/
def append_builtin (nt : NativeTable) (f : Nat) (st : State) (a b : AstNode) :
    Value × State :=
  let pr := get_mutable_value nt f st a
  let item := eval_expr nt f pr.2 b
  match pr.1 with
  | some p =>
    match readPath item.2.env p with
    | some (.vlist items) =>
      (.vnull, { item.2 with env := writePath item.2.env p (.vlist (items ++ [item.1])) })
    | _ => (.vnull, report .errArgument item.2)
  | none => (.vnull, report .errArgument item.2)

/-- Token kinds (TokenType in token.h). -/
inductive TokenType where
  | tEOF | tIDENT | tNUMBER | tFLOAT | tSTRING | tCHAR | tTRUE | tFALSE
  | tAND | tOR | tNOT
  | tPLUS | tINC | tDEC | tMINUS | tMUL | tDIV | tMOD
  | tEQ | tEQEQ | tNEQ | tLT | tGT | tLTE | tGTE
  | tLPAREN | tRPAREN | tLBRACE | tRBRACE | tLBRACKET | tRBRACKET
  | tCOMMA | tSEMICOLON | tNEWLINE
  | tLET | tIF | tELSE | tFUNC | tRETURN | tPRINT | tINPUT | tWHILE
  | tBREAK | tCONTINUE | tSWITCH | tCASE | tDEFAULT | tCOLON | tFOR | tIN
  | tINVALID
deriving DecidableEq, Repr

/-- A token (struct Token in token.h). -/
structure Token where
  ttype : TokenType
  lexeme : String
  number : Int
  fnumber : Rat
  tline : Nat
  tcol : Nat
deriving Repr

/-- Lexer state (struct Lexer): the source buffer contents (NUL-free, as
delimited by strlen), the cursor, and line/column bookkeeping. -/
structure Lexer where
  src : List Char
  pos : Nat
  line : Nat
  col : Nat
  lineStart : Nat

/-- lx_at in lexer.c: the character at the cursor, 0 past the end. -/
def lx_at (L : Lexer) : Char :=
  L.src.getD L.pos '\x00'

/-- lx_peek in lexer.c. -/
def lx_peek (L : Lexer) (off : Nat) : Char :=
  L.src.getD (L.pos + off) '\x00'

/-- lx_advance in lexer.c: update line bookkeeping on a newline, bump the
cursor unless at the end, recompute the column. -/
def lx_advance (L : Lexer) : Lexer :=
  let L1 := if lx_at L = '\n' then { L with line := L.line + 1, lineStart := L.pos + 1 } else L
  let L2 := if L1.pos < L1.src.length then { L1 with pos := L1.pos + 1 } else L1
  { L2 with col := L2.pos - L2.lineStart + 1 }

/-- One comment-skipping loop of lx_skip_ws_but_keep_nl: advance until a
newline or the end of input.  The loop advances the cursor on every step, so
fuel len - pos is exactly enough. -/
def skip_comment_aux : Nat → Lexer → Lexer
  | 0, L => L
  | b + 1, L =>
    if lx_at L ≠ '\n' ∧ lx_at L ≠ '\x00' then skip_comment_aux b (lx_advance L) else L

def skip_comment (L : Lexer) : Lexer :=
  skip_comment_aux (L.src.length - L.pos) L

/-- lx_skip_ws_but_keep_nl in lexer.c: skip hash comments, double-slash
comments and non-newline whitespace.  Every iteration advances the cursor,
so fuel len - pos + 1 is exactly enough. -/
def skip_ws_aux : Nat → Lexer → Lexer
  | 0, L => L
  | b + 1, L =>
    let c := lx_at L
    if c = '#' then skip_ws_aux b (skip_comment L)
    else if c = '/' ∧ lx_peek L 1 = '/' then skip_ws_aux b (skip_comment L)
    else if c = ' ' ∨ c = '\t' ∨ c = '\r' ∨ c = '\x0c' ∨ c = '\x0b' then
      skip_ws_aux b (lx_advance L)
    else L

def lx_skip_ws (L : Lexer) : Lexer :=
  skip_ws_aux (L.src.length - L.pos + 1) L

/-- The string-body loop of lexer_next: advance to the closing quote or end
of input; a backslash followed by any character is skipped with a direct
pos += 2 (bypassing line bookkeeping, as in the C code). -/
def scan_string_aux : Nat → Lexer → Lexer
  | 0, L => L
  | b + 1, L =>
    if lx_at L ≠ '\x00' ∧ lx_at L ≠ '"' then
      if lx_at L = '\\' ∧ lx_peek L 1 ≠ '\x00' then
        scan_string_aux b { L with pos := L.pos + 2 }
      else scan_string_aux b (lx_advance L)
    else L

/-- A digit run (the isdigit loops of the number branch). -/
def scan_digits_aux : Nat → Lexer → Lexer
  | 0, L => L
  | b + 1, L =>
    if (lx_at L).isDigit then scan_digits_aux b (lx_advance L) else L

/-- The identifier loop (isalnum or underscore). -/
def scan_ident_aux : Nat → Lexer → Lexer
  | 0, L => L
  | b + 1, L =>
    if (lx_at L).isAlphanum ∨ lx_at L = '_' then scan_ident_aux b (lx_advance L) else L

/-- The source slice src[start .. stop). -/
def srcSlice (L : Lexer) (start stop : Nat) : String :=
  ⟨(L.src.drop start).take (stop - start)⟩

/-- The single-character operator table of lexer_next (the if-chain that
assigns single_op, as a first-match table); none corresponds to the
T_INVALID sentinel. -/
def charOpTable : List (Char × TokenType) :=
  [('=', .tEQ), ('+', .tPLUS), ('-', .tMINUS), ('*', .tMUL), ('/', .tDIV),
   ('%', .tMOD), ('<', .tLT), ('>', .tGT), ('(', .tLPAREN), (')', .tRPAREN),
   ('{', .tLBRACE), ('}', .tRBRACE), ('[', .tLBRACKET), (']', .tRBRACKET),
   (',', .tCOMMA), (':', .tCOLON), (';', .tSEMICOLON), ('!', .tNOT)]

def charOp (c : Char) : Option TokenType :=
  charOpTable.lookup c

/-- The keyword table of the identifier branch (the strcmp if-chain as a
first-match table), including the alternate keyword spellings. -/
def keywordTable : List (String × TokenType) :=
  [("let", .tLET), ("if", .tIF), ("else", .tELSE), ("func", .tFUNC),
   ("return", .tRETURN), ("print", .tPRINT), ("input", .tINPUT),
   ("true", .tTRUE), ("false", .tFALSE), ("while", .tWHILE), ("for", .tFOR),
   ("in", .tIN), ("break", .tBREAK), ("continue", .tCONTINUE),
   ("switch", .tSWITCH), ("case", .tCASE), ("default", .tDEFAULT),
   ("and", .tAND), ("or", .tOR), ("not", .tNOT),
   ("balls", .tLET), ("big_balls", .tLET), ("shared_balls", .tLET),
   ("loop_your_balls", .tFOR), ("spin_balls", .tWHILE), ("if_balls", .tIF),
   ("else_balls", .tELSE), ("switch_balls", .tSWITCH), ("drop_balls", .tBREAK),
   ("jiggle_balls", .tCONTINUE), ("grab_balls", .tFUNC)]

def keywordType (s : String) : TokenType :=
  match keywordTable.lookup s with
  | some tt => tt
  | none => .tIDENT

/-- make_token plus the position fields every branch fills in. -/
def mkTok (tt : TokenType) (lexeme : String) (line col : Nat) : Token :=
  ⟨tt, lexeme, 0, 0, line, col⟩

/-- The escape mapping of the char-literal branch. -/
def charEscape (esc : Char) : Char :=
  if esc = 'n' then '\n'
  else if esc = 't' then '\t'
  else if esc = '0' then '\x00'
  else if esc = '\'' then '\''
  else esc

/-- lexer_next in lexer.c: skip whitespace/comments, then produce exactly
one token.  Total by construction: every branch returns a token, and any
character not recognized by an earlier branch is returned as its own
one-character T_IDENT token. -/
def lexer_next (L0 : Lexer) : Token × Lexer :=
  let L := lx_skip_ws L0
  let c := lx_at L
  let tokLine := L.line
  let tokCol := L.col
  if c = '\x00' then
    (mkTok .tEOF "" tokLine tokCol, L)
  else if c = '\n' then
    (mkTok .tNEWLINE "\\n" tokLine tokCol, lx_advance L)
  else if c = '"' then
    let L1 := lx_advance L
    let start := L1.pos
    let L2 := scan_string_aux (L1.src.length - L1.pos + 1) L1
    let lexeme := srcSlice L2 start L2.pos
    (⟨.tSTRING, lexeme, 0, 0, tokLine, tokCol⟩, lx_advance L2)
  else if c = '\'' then
    let L1 := lx_advance L
    let cv := lx_at L1
    let vc : Char × Lexer :=
      if cv = '\\' then
        let L2 := lx_advance L1
        (charEscape (lx_at L2), L2)
      else (cv, L1)
    let L3 := lx_advance vc.2
    let L4 := if lx_at L3 = '\'' then lx_advance L3 else L3
    (⟨.tCHAR, String.singleton vc.1, 0, 0, tokLine, tokCol⟩, L4)
  else if c = '=' ∧ lx_peek L 1 = '=' then
    (mkTok .tEQEQ "==" tokLine tokCol, lx_advance (lx_advance L))
  else if c = '!' ∧ lx_peek L 1 = '=' then
    (mkTok .tNEQ "!=" tokLine tokCol, lx_advance (lx_advance L))
  else if c = '<' ∧ lx_peek L 1 = '=' then
    (mkTok .tLTE "<=" tokLine tokCol, lx_advance (lx_advance L))
  else if c = '>' ∧ lx_peek L 1 = '=' then
    (mkTok .tGTE ">=" tokLine tokCol, lx_advance (lx_advance L))
  else if c = '+' ∧ lx_peek L 1 = '+' then
    (mkTok .tINC "++" tokLine tokCol, lx_advance (lx_advance L))
  else if c = '-' ∧ lx_peek L 1 = '-' then
    (mkTok .tDEC "--" tokLine tokCol, lx_advance (lx_advance L))
  else if c = '&' ∧ lx_peek L 1 = '&' then
    (mkTok .tAND "&&" tokLine tokCol, lx_advance (lx_advance L))
  else if c = '|' ∧ lx_peek L 1 = '|' then
    (mkTok .tOR "||" tokLine tokCol, lx_advance (lx_advance L))
  else
    match charOp c with
    | some tt =>
      (mkTok tt (String.singleton c) tokLine tokCol, lx_advance L)
    | none =>
      if c.isDigit then
        let start := L.pos
        let L1 := scan_digits_aux (L.src.length - L.pos + 1) L
        let isFloatAndL2 : Bool × Lexer :=
          if lx_at L1 = '.' ∧ (lx_peek L1 1).isDigit then
            (true, scan_digits_aux (L1.src.length - L1.pos) (lx_advance L1))
          else (false, L1)
        let L2 := isFloatAndL2.2
        let lexeme := srcSlice L2 start L2.pos
        if isFloatAndL2.1 then
          (⟨.tFLOAT, lexeme, 0, atof lexeme, tokLine, tokCol⟩, L2)
        else
          (⟨.tNUMBER, lexeme, atoll lexeme, 0, tokLine, tokCol⟩, L2)
      else if c.isAlpha ∨ c = '_' then
        let start := L.pos
        let L1 := scan_ident_aux (L.src.length - L.pos + 1) L
        let lexeme := srcSlice L1 start L1.pos
        (⟨keywordType lexeme, lexeme, 0, 0, tokLine, tokCol⟩, L1)
      else
        (mkTok .tIDENT (String.singleton c) tokLine tokCol, lx_advance L)

/-- lexer_create in lexer.c. -/
def lexer_create (source : List Char) : Lexer :=
  ⟨source, 0, 1, 1, 0⟩

/-- Parser state (struct Parser in luna/parser.h) together with the
diagnostics the error sink has received so far. -/
structure Parser where
  lx : Lexer
  cur : Token
  has_cur : Bool
  inside_function : Bool
  had_error : Bool
  diags : List LunaErr

/-- advance in parser.cpp: fetch the next token unless the sticky failure
flag is set. -/
def p_advance (p : Parser) : Parser :=
  if p.had_error then p
  else
    let r := lexer_next p.lx
    { p with lx := r.2, cur := r.1, has_cur := true }

/-- check in parser.cpp: always false once the failure flag is set. -/
def p_check (p : Parser) (tt : TokenType) : Bool :=
  if p.had_error ∨ ¬p.has_cur then false else p.cur.ttype = tt

/-- match in parser.cpp. -/
def p_match (p : Parser) (tt : TokenType) : Bool × Parser :=
  if p_check p tt then (true, p_advance p) else (false, p)

/-- consume in parser.cpp: return immediately when the failure flag is
set; on a token mismatch report one syntax diagnostic and set the flag. -/
def p_consume (p : Parser) (tt : TokenType) : Parser :=
  if p.had_error then p
  else if p_check p tt then p_advance p
  else { p with diags := p.diags ++ [.errSyntax], had_error := true }

/-- The report-and-set-flag pattern at the parser's explicit error sites
(error_report_with_context followed by p->had_error = 1). -/
def p_fail (p : Parser) : Parser :=
  { p with diags := p.diags ++ [.errSyntax], had_error := true }

/-- parser_init in parser.cpp: create the lexer and load the first token. -/
def parser_init (source : List Char) : Parser :=
  p_advance ⟨lexer_create source, mkTok .tINVALID "" 0 0, false, false, false, []⟩

mutual

/-- primary in parser.cpp. -/
def primary : Nat → Parser → Option AstNode × Parser
  | 0, p => (none, p)
  | f + 1, p =>
    if p.had_error then (none, p)
    else if p_check p .tNUMBER then (some (.num p.cur.number), p_advance p)
    else if p_check p .tFLOAT then (some (.flt p.cur.fnumber), p_advance p)
    else if p_check p .tSTRING then (some (.strLit p.cur.lexeme), p_advance p)
    else if p_check p .tCHAR then
      (some (.charLit ((p.cur.lexeme.data.headD '\x00').toNat : Int)), p_advance p)
    else if p_check p .tTRUE then (some (.boolLit true), p_advance p)
    else if p_check p .tFALSE then (some (.boolLit false), p_advance p)
    else if p_check p .tIDENT then (some (.ident p.cur.lexeme), p_advance p)
    else
      let mLP := p_match p .tLPAREN
      if mLP.1 then
        let e := expression f mLP.2
        (e.1, p_consume e.2 .tRPAREN)
      else
        let mLB := p_match p .tLBRACKET
        if mLB.1 then
          let p1 := mLB.2
          let r : List AstNode × Parser :=
            if ¬p_check p1 .tRBRACKET then expr_comma_list f p1 [] else ([], p1)
          (some (.listLit r.1), p_consume r.2 .tRBRACKET)
        else
          let mIN := p_match p .tINPUT
          if mIN.1 then
            let p1 := p_consume mIN.2 .tLPAREN
            if ¬p_check p1 .tRPAREN then
              if p_check p1 .tSTRING then
                let prompt := p1.cur.lexeme
                let p2 := p_advance p1
                (some (.inputExpr prompt), p_consume p2 .tRPAREN)
              else (none, p_fail p1)
            else (some (.inputExpr ""), p_consume p1 .tRPAREN)
          else (none, p_fail p)

/-- The do-while loop collecting comma-separated expressions (list
literals, call arguments, print arguments); null results are not pushed. -/
def expr_comma_list : Nat → Parser → List AstNode → List AstNode × Parser
  | 0, p, acc => (acc, p)
  | f + 1, p, acc =>
    let e := expression f p
    let acc2 := match e.1 with
      | some a => acc ++ [a]
      | none => acc
    let m := p_match e.2 .tCOMMA
    if m.1 then expr_comma_list f m.2 acc2 else (acc2, m.2)

/-- call_or_index in parser.cpp: a primary followed by a postfix loop. -/
def call_or_index : Nat → Parser → Option AstNode × Parser
  | 0, p => (none, p)
  | f + 1, p =>
    let e := primary f p
    coi_loop f e.2 e.1

/-- The postfix loop of call_or_index: call parentheses (only on a bare
identifier), index brackets, postfix increment/decrement. -/
def coi_loop : Nat → Parser → Option AstNode → Option AstNode × Parser
  | 0, p, e => (e, p)
  | f + 1, p, e =>
    if p.had_error then (e, p)
    else
      let mLP := p_match p .tLPAREN
      if mLP.1 then
        let p1 := mLP.2
        let r : List AstNode × Parser :=
          if ¬p_check p1 .tRPAREN then expr_comma_list f p1 [] else ([], p1)
        let p2 := p_consume r.2 .tRPAREN
        match e with
        | some (.ident name) => coi_loop f p2 (some (.call name r.1))
        | _ => (none, p_fail p2)
      else
        let mLB := p_match p .tLBRACKET
        if mLB.1 then
          let idx := expression f mLB.2
          let p2 := p_consume idx.2 .tRBRACKET
          let e2 := match e, idx.1 with
            | some t, some i => some (.indexE t i)
            | _, _ => e
          coi_loop f p2 e2
        else
          let mI := p_match p .tINC
          if mI.1 then
            match e with
            | some (.ident name) => coi_loop f mI.2 (some (.inc name))
            | _ => (none, p_fail mI.2)
          else
            let mD := p_match p .tDEC
            if mD.1 then
              match e with
              | some (.ident name) => coi_loop f mD.2 (some (.dec name))
              | _ => (none, p_fail mD.2)
            else (e, p)

/-- unary in parser.cpp: logical not, unary minus (lowered to 0 - x; a null
operand falls through to the next branches), unary plus. -/
def unary : Nat → Parser → Option AstNode × Parser
  | 0, p => (none, p)
  | f + 1, p =>
    let mN := p_match p .tNOT
    if mN.1 then
      let o := unary f mN.2
      (some (.notE o.1), o.2)
    else
      let mM := p_match p .tMINUS
      if mM.1 then
        let r := unary f mM.2
        match r.1 with
        | some right => (some (.binop .opSub (.num 0) right), r.2)
        | none => unary_plus_tail f r.2
      else unary_plus_tail f p

/-- The unary-plus check and the fall-through to call_or_index at the end
of unary. -/
def unary_plus_tail : Nat → Parser → Option AstNode × Parser
  | 0, p => (none, p)
  | f + 1, p =>
    let mP := p_match p .tPLUS
    if mP.1 then unary f mP.2
    else call_or_index f p

/-- multiplication in parser.cpp. -/
def multiplication : Nat → Parser → Option AstNode × Parser
  | 0, p => (none, p)
  | f + 1, p =>
    let e := unary f p
    mul_loop f e.2 e.1

/-- The * / % loop of multiplication. -/
def mul_loop : Nat → Parser → Option AstNode → Option AstNode × Parser
  | 0, p, e => (e, p)
  | f + 1, p, e =>
    if p_check p .tMUL ∨ p_check p .tDIV ∨ p_check p .tMOD then
      let op := p.cur.ttype
      let p1 := p_advance p
      let r := unary f p1
      let kind : BinOpKind :=
        if op = .tMUL then .opMul else if op = .tDIV then .opDiv else .opMod
      let e2 := match e, r.1 with
        | some a, some b => some (.binop kind a b)
        | _, _ => e
      mul_loop f r.2 e2
    else (e, p)

/-- addition in parser.cpp. -/
def addition : Nat → Parser → Option AstNode × Parser
  | 0, p => (none, p)
  | f + 1, p =>
    let e := multiplication f p
    add_loop f e.2 e.1

/-- The + - loop of addition. -/
def add_loop : Nat → Parser → Option AstNode → Option AstNode × Parser
  | 0, p, e => (e, p)
  | f + 1, p, e =>
    if p_check p .tPLUS ∨ p_check p .tMINUS then
      let op := p.cur.ttype
      let p1 := p_advance p
      let r := multiplication f p1
      let kind : BinOpKind := if op = .tPLUS then .opAdd else .opSub
      let e2 := match e, r.1 with
        | some a, some b => some (.binop kind a b)
        | _, _ => e
      add_loop f r.2 e2
    else (e, p)

/-- comparison in parser.cpp. -/
def comparison : Nat → Parser → Option AstNode × Parser
  | 0, p => (none, p)
  | f + 1, p =>
    let e := addition f p
    cmp_loop f e.2 e.1

/-- The relational-operator loop of comparison. -/
def cmp_loop : Nat → Parser → Option AstNode → Option AstNode × Parser
  | 0, p, e => (e, p)
  | f + 1, p, e =>
    if p_check p .tLT ∨ p_check p .tGT ∨ p_check p .tLTE ∨ p_check p .tGTE then
      let op := p.cur.ttype
      let p1 := p_advance p
      let r := addition f p1
      let kind : BinOpKind :=
        if op = .tLT then .opLt
        else if op = .tGT then .opGt
        else if op = .tLTE then .opLte
        else .opGte
      let e2 := match e, r.1 with
        | some a, some b => some (.binop kind a b)
        | _, _ => e
      cmp_loop f r.2 e2
    else (e, p)

/-- equality in parser.cpp. -/
def equality : Nat → Parser → Option AstNode × Parser
  | 0, p => (none, p)
  | f + 1, p =>
    let e := comparison f p
    eq_loop f e.2 e.1

/-- The == != loop of equality. -/
def eq_loop : Nat → Parser → Option AstNode → Option AstNode × Parser
  | 0, p, e => (e, p)
  | f + 1, p, e =>
    if p_check p .tEQEQ ∨ p_check p .tNEQ then
      let op := p.cur.ttype
      let p1 := p_advance p
      let r := comparison f p1
      let kind : BinOpKind := if op = .tEQEQ then .opEq else .opNeq
      let e2 := match e, r.1 with
        | some a, some b => some (.binop kind a b)
        | _, _ => e
      eq_loop f r.2 e2
    else (e, p)

/-- logical_and in parser.cpp. -/
def logical_and : Nat → Parser → Option AstNode × Parser
  | 0, p => (none, p)
  | f + 1, p =>
    let e := equality f p
    and_loop f e.2 e.1

/-- The while(match(T_AND)) loop of logical_and. -/
def and_loop : Nat → Parser → Option AstNode → Option AstNode × Parser
  | 0, p, e => (e, p)
  | f + 1, p, e =>
    let m := p_match p .tAND
    if m.1 then
      let r := equality f m.2
      let e2 := match e, r.1 with
        | some a, some b => some (.binop .opAnd a b)
        | _, _ => e
      and_loop f r.2 e2
    else (e, p)

/-- logical_or in parser.cpp. -/
def logical_or : Nat → Parser → Option AstNode × Parser
  | 0, p => (none, p)
  | f + 1, p =>
    let e := logical_and f p
    or_loop f e.2 e.1

/-- The while(match(T_OR)) loop of logical_or. -/
def or_loop : Nat → Parser → Option AstNode → Option AstNode × Parser
  | 0, p, e => (e, p)
  | f + 1, p, e =>
    let m := p_match p .tOR
    if m.1 then
      let r := logical_and f m.2
      let e2 := match e, r.1 with
        | some a, some b => some (.binop .opOr a b)
        | _, _ => e
      or_loop f r.2 e2
    else (e, p)

/-- expression in parser.cpp: the precedence-climbing entry point, which
checks the sticky failure flag first. -/
def expression : Nat → Parser → Option AstNode × Parser
  | 0, p => (none, p)
  | f + 1, p =>
    if p.had_error then (none, p)
    else logical_or f p

/-- The name-collecting do-while of the let branch;
none means the variable-name error was reported. -/
def let_names_loop : Nat → Parser → List String → Option (List String) × Parser
  | 0, p, acc => (some acc, p)
  | f + 1, p, acc =>
    if ¬p_check p .tIDENT then (none, p_fail p)
    else
      let acc2 := acc ++ [p.cur.lexeme]
      let p1 := p_advance p
      let m := p_match p1 .tCOMMA
      if m.1 then let_names_loop f m.2 acc2 else (some acc2, m.2)

/-- The initializer-collecting do-while of the let branch (null expressions
are pushed and counted, as in the C code). -/
def let_values_loop : Nat → Parser → List (Option AstNode) →
    List (Option AstNode) × Parser
  | 0, p, acc => (acc, p)
  | f + 1, p, acc =>
    let v := expression f p
    let acc2 := acc ++ [v.1]
    let m := p_match v.2 .tCOMMA
    if m.1 then let_values_loop f m.2 acc2 else (acc2, m.2)

/-- block in parser.cpp: collect statements until the closing brace
(skipping newlines, returning early under the failure flag), then consume
the brace. -/
def block_stmts : Nat → Parser → List AstNode → List AstNode × Parser
  | 0, p, acc => (acc, p)
  | f + 1, p, acc =>
    if ¬p_check p .tRBRACE ∧ ¬p_check p .tEOF then
      if p.had_error then (acc, p)
      else
        let m := p_match p .tNEWLINE
        if m.1 then block_stmts f m.2 acc
        else
          let s := statement f m.2
          let acc2 := match s.1 with
            | some st => acc ++ [st]
            | none => acc
          block_stmts f s.2 acc2
    else (acc, p_consume p .tRBRACE)

/-- The case-body loop of the switch branch: collect statements until the
next case/default/closing brace.  Unlike block, this loop has no failure
flag check, so once the flag is set every check returns false and the loop
can only stop by running out of fuel (the C loop spins forever). -/
def case_body_loop : Nat → Parser → List AstNode → List AstNode × Parser
  | 0, p, acc => (acc, p)
  | f + 1, p, acc =>
    if ¬p_check p .tCASE ∧ ¬p_check p .tDEFAULT ∧ ¬p_check p .tRBRACE then
      let m := p_match p .tNEWLINE
      if m.1 then case_body_loop f m.2 acc
      else
        let s := statement f m.2
        let acc2 := match s.1 with
          | some st => acc ++ [st]
          | none => acc
        case_body_loop f s.2 acc2
    else (acc, p)

/-- The case/default-collecting loop of the switch branch; none models the
direct return-nullptr path on an unexpected token inside the switch (and
fuel exhaustion). -/
def switch_body_loop : Nat → Parser → List (AstNode × List AstNode) → List AstNode →
    Option (List (AstNode × List AstNode) × List AstNode) × Parser
  | 0, p, _, _ => (none, p)
  | f + 1, p, cs, ds =>
    if ¬p_check p .tRBRACE ∧ ¬p_check p .tEOF then
      if p.had_error then (some (cs, ds), p)
      else
        let mC := p_match p .tCASE
        if mC.1 then
          let v := expression f mC.2
          let p1 := p_consume v.2 .tCOLON
          let cb := case_body_loop f p1 []
          let cs2 := match v.1 with
            | some val => cs ++ [(val, cb.1)]
            | none => cs
          switch_body_loop f cb.2 cs2 ds
        else
          let mD := p_match p .tDEFAULT
          if mD.1 then
            let p1 := p_consume mD.2 .tCOLON
            let db := case_body_loop f p1 ds
            switch_body_loop f db.2 cs db.1
          else
            let mN := p_match p .tNEWLINE
            if mN.1 then switch_body_loop f mN.2 cs ds
            else (none, p_fail p)
    else (some (cs, ds), p)

/-- The parameter-collecting do-while of function_def; none means the
parameter-name error was reported. -/
def params_loop : Nat → Parser → List String → Option (List String) × Parser
  | 0, p, acc => (some acc, p)
  | f + 1, p, acc =>
    if ¬p_check p .tIDENT then (none, p_fail p)
    else
      let acc2 := acc ++ [p.cur.lexeme]
      let p1 := p_advance p
      let m := p_match p1 .tCOMMA
      if m.1 then params_loop f m.2 acc2 else (some acc2, m.2)

/-- function_def in parser.cpp. -/
def function_def : Nat → Parser → Option AstNode × Parser
  | 0, p => (none, p)
  | f + 1, p =>
    if p.had_error then (none, p)
    else if ¬p_check p .tIDENT then (none, p_fail p)
    else
      let name := p.cur.lexeme
      let p1 := p_advance p
      let p2 := p_consume p1 .tLPAREN
      let pr : Option (List String) × Parser :=
        if ¬p_check p2 .tRPAREN then params_loop f p2 [] else (some [], p2)
      match pr.1 with
      | none => (none, pr.2)
      | some params =>
        let p3 := p_consume pr.2 .tRPAREN
        let p4 := p_consume p3 .tLBRACE
        let p5 : Parser := { p4 with inside_function := true }
        let b := block_stmts f p5 []
        let p6 : Parser := { b.2 with inside_function := false }
        if ¬p6.had_error then (some (.funcDef name params b.1), p6) else (none, p6)

/-- statement in parser.cpp. -/
def statement : Nat → Parser → Option AstNode × Parser
  | 0, p => (none, p)
  | f + 1, p =>
    if p.had_error then (none, p)
    else
      let mFN := p_match p .tFUNC
      if mFN.1 then function_def f mFN.2
      else
        let mLET := p_match p .tLET
        if mLET.1 then
          let nr := let_names_loop f mLET.2 []
          match nr.1 with
          | none => (none, nr.2)
          | some names =>
            let mEQ := p_match nr.2 .tEQ
            let vr : List (Option AstNode) × Parser :=
              if mEQ.1 then let_values_loop f mEQ.2 [] else ([], mEQ.2)
            if vr.1.length > 0 ∧ vr.1.length ≠ names.length then (none, p_fail vr.2)
            else
              let lets : List AstNode :=
                if vr.1.length > 0 then
                  (names.zip vr.1).map fun nv => .letStmt nv.1 nv.2
                else names.map fun nm => .letStmt nm none
              match lets with
              | [l] => (some l, vr.2)
              | _ => (some (.group lets), vr.2)
        else
          let mPR := p_match p .tPRINT
          if mPR.1 then
            let p1 := p_consume mPR.2 .tLPAREN
            let r : List AstNode × Parser :=
              if ¬p_check p1 .tRPAREN then expr_comma_list f p1 [] else ([], p1)
            (some (.printStmt r.1), p_consume r.2 .tRPAREN)
          else
            let mRET := p_match p .tRETURN
            if mRET.1 then
              if p_check mRET.2 .tRBRACE then (some (.ret none), mRET.2)
              else
                let e := expression f mRET.2
                (some (.ret e.1), e.2)
            else
              let mBR := p_match p .tBREAK
              if mBR.1 then (some .breakStmt, mBR.2)
              else
                let mCO := p_match p .tCONTINUE
                if mCO.1 then (some .continueStmt, mCO.2)
                else
                  let mIF := p_match p .tIF
                  if mIF.1 then statement_if f mIF.2
                  else
                    let mWH := p_match p .tWHILE
                    if mWH.1 then
                      let p1 := p_consume mWH.2 .tLPAREN
                      let c := expression f p1
                      let p2 := p_consume c.2 .tRPAREN
                      let p3 := (p_match p2 .tNEWLINE).2
                      let p4 := p_consume p3 .tLBRACE
                      let b := block_stmts f p4 []
                      match c.1 with
                      | some cond =>
                        if ¬b.2.had_error then (some (.whileStmt cond b.1), b.2)
                        else (none, b.2)
                      | none => (none, b.2)
                    else
                      let mFO := p_match p .tFOR
                      if mFO.1 then
                        let p1 := p_consume mFO.2 .tLPAREN
                        let ini := statement f p1
                        let p2 := p_consume ini.2 .tSEMICOLON
                        let c := expression f p2
                        let p3 := p_consume c.2 .tSEMICOLON
                        let ic := statement f p3
                        let p4 := p_consume ic.2 .tRPAREN
                        let p5 := (p_match p4 .tNEWLINE).2
                        let p6 := p_consume p5 .tLBRACE
                        let b := block_stmts f p6 []
                        if ¬b.2.had_error then
                          match ini.1, c.1, ic.1 with
                          | some i, some cnd, some inc2 =>
                            (some (.forStmt i cnd inc2 b.1), b.2)
                          | _, _, _ => (none, b.2)
                        else (none, b.2)
                      else
                        let mSW := p_match p .tSWITCH
                        if mSW.1 then
                          let p1 := p_consume mSW.2 .tLPAREN
                          let e := expression f p1
                          let p2 := p_consume e.2 .tRPAREN
                          let p3 := p_consume p2 .tLBRACE
                          let r := switch_body_loop f p3 [] []
                          match r.1 with
                          | none => (none, r.2)
                          | some csds =>
                            let p4 := p_consume r.2 .tRBRACE
                            match e.1 with
                            | some subj =>
                              if ¬p4.had_error then
                                (some (.switchStmt subj csds.1 csds.2), p4)
                              else (none, p4)
                            | none => (none, p4)
                        else
                          let e := expression f p
                          let mEQ := p_match e.2 .tEQ
                          if mEQ.1 then
                            match e.1 with
                            | some (.ident name) =>
                              let v := expression f mEQ.2
                              match v.1 with
                              | some val =>
                                if ¬v.2.had_error then (some (.assign name val), v.2)
                                else (none, v.2)
                              | none => (none, v.2)
                            | some (.indexE target index) =>
                              let v := expression f mEQ.2
                              match v.1 with
                              | some val =>
                                if ¬v.2.had_error then
                                  (some (.assignIndex target index val), v.2)
                                else (none, v.2)
                              | none => (none, v.2)
                            | _ => (none, p_fail mEQ.2)
                          else e

/-- The if branch of statement (if / else if / else, with the newline
tolerances of the C code). -/
def statement_if : Nat → Parser → Option AstNode × Parser
  | 0, p => (none, p)
  | f + 1, p =>
    let p1 := p_consume p .tLPAREN
    let c := expression f p1
    let p2 := p_consume c.2 .tRPAREN
    let p3 := (p_match p2 .tNEWLINE).2
    let p4 := p_consume p3 .tLBRACE
    let tb := block_stmts f p4 []
    let p5 := (p_match tb.2 .tNEWLINE).2
    let mEL := p_match p5 .tELSE
    let elseRes : List AstNode × Parser :=
      if mEL.1 then
        let p6 := (p_match mEL.2 .tNEWLINE).2
        let mEIF := p_match p6 .tIF
        if mEIF.1 then
          let p7 := p_consume mEIF.2 .tLPAREN
          let ec := expression f p7
          let p8 := p_consume ec.2 .tRPAREN
          let p9 := (p_match p8 .tNEWLINE).2
          let p10 := p_consume p9 .tLBRACE
          let eb := block_stmts f p10 []
          match ec.1 with
          | some cond2 => ([.ifStmt cond2 eb.1 []], eb.2)
          | none => ([], eb.2)
        else
          let p7 := p_consume p6 .tLBRACE
          let eb := block_stmts f p7 []
          (eb.1, eb.2)
      else ([], p5)
    match c.1 with
    | some cond =>
      if ¬elseRes.2.had_error then (some (.ifStmt cond tb.1 elseRes.1), elseRes.2)
      else (none, elseRes.2)
    | none => (none, elseRes.2)

/-- The top-level statement loop of parser_parse_program (breaks on the
failure flag, skips newlines, accepts func definitions and statements). -/
def program_loop : Nat → Parser → List AstNode → List AstNode × Parser
  | 0, p, acc => (acc, p)
  | f + 1, p, acc =>
    if ¬p_check p .tEOF then
      if p.had_error then (acc, p)
      else
        let m := p_match p .tNEWLINE
        if m.1 then program_loop f m.2 acc
        else
          let mF := p_match p .tFUNC
          let s := if mF.1 then function_def f mF.2 else statement f mF.2
          let acc2 := match s.1 with
            | some st => acc ++ [st]
            | none => acc
          program_loop f s.2 acc2
    else (acc, p)

end

/-- parser_parse_program in parser.cpp: collect top-level statements; once
the failure flag is set, discard the partial tree and return Failure. -/
def parser_parse_program (fuel : Nat) (p : Parser) : Option AstNode × Parser :=
  let r := program_loop fuel p []
  if r.2.had_error then (none, r.2) else (some (.block r.1), r.2)

/-- Parse a source text from scratch (parser_init followed by
parser_parse_program, as the REPL driver does). -/
def parse_program (fuel : Nat) (source : List Char) : Option AstNode × Parser :=
  parser_parse_program fuel (parser_init source)

end Luna

namespace Luna

/-- "Both operands are VAL_INT" — the guard of eval_binop's pure-integer
path. -/
def bothInt : Value → Value → Bool
  | .vint _, .vint _ => true
  | _, _ => false

/-- A sample in-place native behaviour in the style of the repository's
sort/shuffle natives: it returns null and reverses the elements of each
list argument in place (length-preserving, as sort and shuffle are). -/
def revNative (args : List Value) : Value × List Value :=
  (.vnull, args.map fun v =>
    match v with
    | .vlist l => .vlist l.reverse
    | w => w)

end Luna

/-- C4: for integers a and b, if b ≠ 0 then a / b evaluates to a float
whose value is exactly the real quotient a/b (floats are modelled as
rationals, which embed exactly into the reals), and a / 0 evaluates to the
integer 0 — not a float and not an error. -/
theorem C4_int_division (a b : Int) (h : b ≠ 0) :
    (∃ q : Rat, Luna.eval_binop .opDiv (.vint a) (.vint b) = some (.vfloat q)
        ∧ (q : ℝ) = (a : ℝ) / (b : ℝ))
    ∧ Luna.eval_binop .opDiv (.vint a) (.vint 0) = some (.vint 0) := by
  constructor
  · refine ⟨(a : Rat) / (b : Rat), ?_, by push_cast; ring⟩
    simp [Luna.eval_binop, h]
  · simp [Luna.eval_binop]

/-- Witness for C4 at a = 7, b = 2. -/
theorem C4_int_division_witness :
    (∃ q : Rat, Luna.eval_binop .opDiv (.vint 7) (.vint 2) = some (.vfloat q)
        ∧ (q : ℝ) = ((7 : Int) : ℝ) / ((2 : Int) : ℝ))
    ∧ Luna.eval_binop .opDiv (.vint 7) (.vint 0) = some (.vint 0) :=
  C4_int_division 7 2 (by norm_num)

/-- C5: on the mixed/float numeric path of eval_binop (both operands
numeric, not both VAL_INT), operands closer than the 1e-6 epsilon compare
equal: a == b yields boolean true and a != b yields boolean false. -/
theorem C5_epsilon_equality (l r : Luna.Value)
    (hl : Luna.isNum l = true) (hr : Luna.isNum r = true)
    (hmix : Luna.bothInt l r = false)
    (heps : |Luna.toF l - Luna.toF r| < Luna.EPSILON) :
    Luna.eval_binop .opEq l r = some (.vbool true)
    ∧ Luna.eval_binop .opNeq l r = some (.vbool false) := by
  cases l <;> cases r <;>
    simp_all [Luna.isNum, Luna.bothInt, Luna.eval_binop, Luna.evalBinopMixed,
      Luna.toF, not_le]

/-- Witness for C5 at l = 1.0 and r = 1 + 1e-7. -/
theorem C5_epsilon_equality_witness :
    Luna.eval_binop .opEq (.vfloat 1) (.vfloat (1 + 1/10000000)) = some (.vbool true)
    ∧ Luna.eval_binop .opNeq (.vfloat 1) (.vfloat (1 + 1/10000000)) = some (.vbool false) :=
  C5_epsilon_equality (.vfloat 1) (.vfloat (1 + 1/10000000)) rfl rfl rfl
    (by norm_num [Luna.toF, Luna.EPSILON, abs])

/-- C9: the remainder operator is guarded only by b ≠ 0.  For integers with
b ≠ 0 it returns the host (truncated) remainder; the divisor-zero case has
no check on either the pure-integer path or the mixed/float path (which
truncates both operands to integers first), so the undefined-behaviour
branch of the embedding (none) is reachable from a % 0 — in contrast to
division, whose b = 0 case is explicitly checked and returns integer 0. -/
theorem C9_mod_unguarded (a b : Int) (hb : b ≠ 0) :
    Luna.eval_binop .opMod (.vint a) (.vint b) = some (.vint (Int.tmod a b))
    ∧ Luna.eval_binop .opMod (.vint a) (.vint 0) = none
    ∧ (∀ x y : Rat, Luna.ratTrunc y ≠ 0 →
        Luna.eval_binop .opMod (.vfloat x) (.vfloat y)
          = some (.vint (Int.tmod (Luna.ratTrunc x) (Luna.ratTrunc y))))
    ∧ (∀ x y : Rat, Luna.ratTrunc y = 0 →
        Luna.eval_binop .opMod (.vfloat x) (.vfloat y) = none)
    ∧ Luna.eval_binop .opDiv (.vint a) (.vint 0) = some (.vint 0) := by
  refine ⟨by simp [Luna.eval_binop, hb], by simp [Luna.eval_binop], ?_, ?_,
    by simp [Luna.eval_binop]⟩
  · intro x y hy
    simp [Luna.eval_binop, Luna.isNum, Luna.toF, Luna.evalBinopMixed, hy]
  · intro x y hy
    simp [Luna.eval_binop, Luna.isNum, Luna.toF, Luna.evalBinopMixed, hy]

/-- Witness for C9 at a = 7, b = 2 and the mixed path at 7.5 % 2.5. -/
theorem C9_mod_unguarded_witness :
    Luna.eval_binop .opMod (.vint 7) (.vint 2) = some (.vint (Int.tmod 7 2))
    ∧ Luna.eval_binop .opMod (.vint 7) (.vint 0) = none
    ∧ Luna.eval_binop .opMod (.vfloat (15/2)) (.vfloat (5/2))
        = some (.vint (Int.tmod (Luna.ratTrunc (15/2)) (Luna.ratTrunc (5/2))))
    ∧ Luna.eval_binop .opMod (.vfloat 1) (.vfloat 0) = none := by
  have h := C9_mod_unguarded 7 2 (by norm_num)
  exact ⟨h.1, h.2.1, h.2.2.1 (15/2) (5/2) (by norm_num [Luna.ratTrunc]),
    h.2.2.2.1 1 0 (by norm_num [Luna.ratTrunc])⟩

/-- C2 counterexample: the switch subject 1.0 and the case value
1 + 1e-7 differ by less than the == epsilon of 1e-6, so == evaluates to
true — yet the switch case comparison is exact and does not match: the
case body never runs (no output), refuting "a case matches the subject
exactly when == would yield true". -/
theorem C2_counterexample :
    Luna.eval_binop .opEq (.vfloat 1) (.vfloat (1 + 1/10000000)) = some (.vbool true)
    ∧ Luna.case_eq (.vfloat 1) (.vfloat (1 + 1/10000000)) = false
    ∧ (Luna.exec_stmt [] 10 ⟨[⟨[], []⟩], Luna.clearFlags, [], [], [], false⟩
        (.switchStmt (.flt 1)
          [(.flt (1 + 1/10000000), [.printStmt [.strLit "matched"]])] [])).output
        = [] := by
  have hcase : Luna.case_eq (.vfloat 1) (.vfloat (1 + 1/10000000)) = false := by
    norm_num [Luna.case_eq]
  refine ⟨?_, hcase, ?_⟩
  · simp [Luna.eval_binop, Luna.isNum, Luna.toF, Luna.evalBinopMixed, Luna.EPSILON]
    norm_num [abs]
  · have hcase2 : Luna.case_eq (.vfloat 1) (.vfloat (1 + 10000000⁻¹)) = false := by
      norm_num [Luna.case_eq]
    simp [Luna.exec_stmt, Luna.switch_cases, Luna.eval_expr, hcase2]

/-- C2 as amended: a switch case matches the subject by exact comparison —
for float operands matching holds iff the two values are exactly equal (no
epsilon), and int/float cross-comparison is likewise exact; the first
matching case in source order runs its body and no other case runs (a
matched case makes the result independent of all later cases, and an
unmatched case hands over to the rest of the case list). -/
theorem C2_switch_matching_amended :
    (∀ a b : Rat, (Luna.case_eq (.vfloat a) (.vfloat b) = true ↔ a = b))
    ∧ (∀ (a : Int) (b : Rat), (Luna.case_eq (.vint a) (.vfloat b) = true ↔ (a : Rat) = b))
    ∧ (∀ (a : Rat) (b : Int), (Luna.case_eq (.vfloat a) (.vint b) = true ↔ a = (b : Rat)))
    ∧ (∀ (nt : Luna.NativeTable) (f : Nat) (st : Luna.State) (v : Luna.Value)
        (cval : Luna.AstNode) (body : List Luna.AstNode)
        (rest rest' : List (Luna.AstNode × List Luna.AstNode)),
        Luna.case_eq v (Luna.eval_expr nt f st cval).1 = true →
        Luna.switch_cases nt (f + 1) st v ((cval, body) :: rest)
          = Luna.switch_cases nt (f + 1) st v ((cval, body) :: rest'))
    ∧ (∀ (nt : Luna.NativeTable) (f : Nat) (st : Luna.State) (v : Luna.Value)
        (cval : Luna.AstNode) (body : List Luna.AstNode)
        (rest : List (Luna.AstNode × List Luna.AstNode)),
        Luna.case_eq v (Luna.eval_expr nt f st cval).1 = false →
        Luna.switch_cases nt (f + 1) st v ((cval, body) :: rest)
          = Luna.switch_cases nt f (Luna.eval_expr nt f st cval).2 v rest) := by
  refine ⟨?_, ?_, ?_, ?_, ?_⟩
  · intro a b; simp [Luna.case_eq]
  · intro a b; simp [Luna.case_eq]
  · intro a b; simp [Luna.case_eq]
  · intro nt f st v cval body rest rest' h
    simp [Luna.switch_cases, h]
  · intro nt f st v cval body rest h
    simp [Luna.switch_cases, h]

/-- Witness for C2's amended theorem: exact float equality matches, the
matched first case makes later cases irrelevant, and an unmatched case
falls through to the rest. -/
theorem C2_switch_matching_amended_witness :
    (Luna.case_eq (.vfloat (3/2)) (.vfloat (3/2)) = true ↔ (3/2 : Rat) = 3/2)
    ∧ (Luna.switch_cases [] 6 ⟨[⟨[], []⟩], Luna.clearFlags, [], [], [], false⟩
        (.vint 1) [((.num 1), []), ((.num 2), [.printStmt []])]
        = Luna.switch_cases [] 6 ⟨[⟨[], []⟩], Luna.clearFlags, [], [], [], false⟩
          (.vint 1) [((.num 1), [])])
    ∧ (Luna.switch_cases [] 6 ⟨[⟨[], []⟩], Luna.clearFlags, [], [], [], false⟩
        (.vint 3) [((.num 1), []), ((.num 2), [])]
        = Luna.switch_cases [] 5
          (Luna.eval_expr [] 5 ⟨[⟨[], []⟩], Luna.clearFlags, [], [], [], false⟩ (.num 1)).2
          (.vint 3) [((.num 2), [])]) := by
  refine ⟨C2_switch_matching_amended.1 (3/2) (3/2), ?_, ?_⟩
  · exact C2_switch_matching_amended.2.2.2.1 [] 5
      ⟨[⟨[], []⟩], Luna.clearFlags, [], [], [], false⟩ (.vint 1) (.num 1) []
      [((.num 2), [.printStmt []])] [] (by decide)
  · exact C2_switch_matching_amended.2.2.2.2 [] 5
      ⟨[⟨[], []⟩], Luna.clearFlags, [], [], [], false⟩ (.vint 3) (.num 1) []
      [((.num 2), [])] (by decide)

/-- C6: evaluating the parser on the failing input "input 5".  The missing
left parenthesis after input reports a first syntax diagnostic and sets the
sticky failure flag; then, because check() returns false whenever the flag
is set, the not-closing-paren test succeeds vacuously and the
expected-string-prompt branch reports a second diagnostic.  parse_program
does discard the partial tree and return Failure, but two diagnostics are
emitted, contradicting "at most one diagnostic is reported". -/
theorem C6_parser_double_diagnostic :
    (Luna.parse_program 100 "input 5".data).1 = none
    ∧ (Luna.parse_program 100 "input 5".data).2.diags
        = [Luna.LunaErr.errSyntax, Luna.LunaErr.errSyntax] :=
  ⟨rfl, rfl⟩

/-- C10 counterexample: with all control-flow signals clear, executing
switch (f()) { } — where f is a user function whose body is a bare break
statement — finishes with the Break signal still set: the break raised
while evaluating the subject escapes the switch (there is no matched case
body and no default to trigger the consuming branch). -/
theorem C10_counterexample :
    (Luna.exec_stmt [] 10
      ⟨[⟨[], [("f", ([], [Luna.AstNode.breakStmt]))]⟩], Luna.clearFlags, [], [], [], false⟩
      (.switchStmt (.call "f" []) [] [])).flags.breakActive = true := rfl

/-- C10 as amended: a Break that reaches an executed case body or default
body is consumed — whenever some case matches, or a default body is
present, the switch finishes with the Break signal clear (first and second
conjuncts).  But when no case matches and there is no default clause, the
switch simply hands back the state left by scanning the cases (third
conjunct), so a Break raised during evaluation of the subject or of a
non-matching case value escapes to the enclosing context. -/
theorem C10_switch_break_amended :
    (∀ (nt : Luna.NativeTable) (f : Nat) (st : Luna.State) (v : Luna.Value)
        (cases : List (Luna.AstNode × List Luna.AstNode)),
        (Luna.switch_cases nt f st v cases).1 = true →
        (Luna.switch_cases nt f st v cases).2.flags.breakActive = false)
    ∧ (∀ (nt : Luna.NativeTable) (f : Nat) (st : Luna.State)
        (subj : Luna.AstNode) (cases : List (Luna.AstNode × List Luna.AstNode))
        (dflt : List Luna.AstNode), dflt ≠ [] →
        (Luna.exec_stmt nt (f + 1) st (.switchStmt subj cases dflt)).flags.breakActive
          = false)
    ∧ (∀ (nt : Luna.NativeTable) (f : Nat) (st : Luna.State)
        (subj : Luna.AstNode) (cases : List (Luna.AstNode × List Luna.AstNode)),
        Luna.exec_stmt nt (f + 1) st (.switchStmt subj cases [])
          = (Luna.switch_cases nt f (Luna.eval_expr nt f st subj).2
              (Luna.eval_expr nt f st subj).1 cases).2) := by
  have part1 : ∀ (nt : Luna.NativeTable) (f : Nat) (st : Luna.State) (v : Luna.Value)
      (cases : List (Luna.AstNode × List Luna.AstNode)),
      (Luna.switch_cases nt f st v cases).1 = true →
      (Luna.switch_cases nt f st v cases).2.flags.breakActive = false := by
    intro nt f
    induction f with
    | zero => intro st v cases h; simp [Luna.switch_cases] at h
    | succ f ih =>
      intro st v cases h
      match cases with
      | [] => simp [Luna.switch_cases] at h
      | (cval, body) :: rest =>
        rw [Luna.switch_cases] at h ⊢
        by_cases hc : Luna.case_eq v (Luna.eval_expr nt f st cval).1 = true
        · simp [hc]
        · simp only [hc, if_false, Bool.false_eq_true] at h ⊢
          exact ih _ _ _ h
  refine ⟨part1, ?_, ?_⟩
  · intro nt f st subj cases dflt hd
    rw [Luna.exec_stmt]
    by_cases hm : (Luna.switch_cases nt f (Luna.eval_expr nt f st subj).2
        (Luna.eval_expr nt f st subj).1 cases).1 = true
    · simp [hm]
      exact part1 _ _ _ _ _ hm
    · simp [hm, List.length_pos.mpr hd]
  · intro nt f st subj cases
    simp [Luna.exec_stmt]

/-- Witness for C10's amended theorem: a matched case containing break
finishes with Break clear; a switch with a default body finishes with
Break clear; a switch with no default hands back the case-scan state. -/
theorem C10_switch_break_amended_witness :
    (Luna.switch_cases [] 5
        ⟨[⟨[], []⟩], Luna.clearFlags, [], [], [], false⟩ (.vint 1)
        [(.num 1, [Luna.AstNode.breakStmt])]).2.flags.breakActive = false
    ∧ (Luna.exec_stmt [] 6
        ⟨[⟨[], [("f", ([], [Luna.AstNode.breakStmt]))]⟩], Luna.clearFlags, [], [], [], false⟩
        (.switchStmt (.call "f" []) [] [.printStmt []])).flags.breakActive = false
    ∧ (Luna.exec_stmt [] 6
        ⟨[⟨[], []⟩], Luna.clearFlags, [], [], [], false⟩
        (.switchStmt (.num 7) [(.num 1, [])] [])
        = (Luna.switch_cases [] 5
            (Luna.eval_expr [] 5 ⟨[⟨[], []⟩], Luna.clearFlags, [], [], [], false⟩ (.num 7)).2
            (Luna.eval_expr [] 5 ⟨[⟨[], []⟩], Luna.clearFlags, [], [], [], false⟩ (.num 7)).1
            [(.num 1, [])]).2) :=
  ⟨C10_switch_break_amended.1 [] 5 _ (.vint 1) [(.num 1, [Luna.AstNode.breakStmt])] rfl,
    C10_switch_break_amended.2.1 [] 5 _ (.call "f" []) [] [.printStmt []] (by simp),
    C10_switch_break_amended.2.2 [] 5 _ (.num 7) [(.num 1, [])]⟩

namespace Luna

/-- setBack fails exactly when the backwards lookup fails. -/
theorem setBack_none_iff (vars : List (String × Value)) (n : String) (v : Value) :
    setBack vars n v = none ↔ lookupBack vars n = none := by
  induction vars with
  | nil => simp [setBack, lookupBack]
  | cons kv rest ih =>
    obtain ⟨k, v0⟩ := kv
    simp only [setBack, lookupBack]
    cases h : setBack rest n v with
    | some rest2 =>
      have : ¬lookupBack rest n = none := by
        intro hl
        rw [← ih] at hl
        simp [h] at hl
      cases hl : lookupBack rest n with
      | some w => simp
      | none => exact absurd hl this
    | none =>
      have hl : lookupBack rest n = none := ih.mp h
      rw [hl]
      by_cases hk : k = n <;> simp [hk]

/-- After a successful setBack, the backwards lookup finds the new value. -/
theorem setBack_lookup_self (vars vars' : List (String × Value)) (n : String) (v : Value)
    (h : setBack vars n v = some vars') : lookupBack vars' n = some v := by
  induction vars generalizing vars' with
  | nil => simp [setBack] at h
  | cons kv rest ih =>
    obtain ⟨k, v0⟩ := kv
    simp only [setBack] at h
    cases hs : setBack rest n v with
    | some rest2 =>
      rw [hs] at h
      cases h
      simp only [lookupBack, ih rest2 hs]
    | none =>
      rw [hs] at h
      by_cases hk : k = n
      · simp only [hk, if_pos rfl] at h
        cases h
        have hl : lookupBack rest n = none := (setBack_none_iff rest n v).mp hs
        simp [lookupBack, hl, hk]
      · simp [hk] at h

/-- A successful setBack leaves lookups of every other name unchanged. -/
theorem setBack_lookup_other (vars vars' : List (String × Value)) (n m : String) (v : Value)
    (hm : m ≠ n) (h : setBack vars n v = some vars') :
    lookupBack vars' m = lookupBack vars m := by
  induction vars generalizing vars' with
  | nil => simp [setBack] at h
  | cons kv rest ih =>
    obtain ⟨k, v0⟩ := kv
    simp only [setBack] at h
    cases hs : setBack rest n v with
    | some rest2 =>
      rw [hs] at h
      cases h
      simp only [lookupBack, ih rest2 hs]
    | none =>
      rw [hs] at h
      by_cases hk : k = n
      · simp only [hk, if_pos rfl] at h
        cases h
        simp only [lookupBack]
        cases lookupBack rest m with
        | some w => rfl
        | none =>
          have hnm : ¬n = m := fun hc => hm hc.symm
          rw [hk]
          simp [hnm]
      · simp [hk] at h

/-- setBack preserves the sequence of binding names. -/
theorem setBack_map_fst (vars vars' : List (String × Value)) (n : String) (v : Value)
    (h : setBack vars n v = some vars') : vars'.map Prod.fst = vars.map Prod.fst := by
  induction vars generalizing vars' with
  | nil => simp [setBack] at h
  | cons kv rest ih =>
    obtain ⟨k, v0⟩ := kv
    simp only [setBack] at h
    cases hs : setBack rest n v with
    | some rest2 =>
      rw [hs] at h
      cases h
      simp [ih rest2 hs]
    | none =>
      rw [hs] at h
      by_cases hk : k = n
      · simp only [hk, if_pos rfl] at h
        cases h
        simp [hk]
      · simp [hk] at h

/-- env_assign on a name bound nowhere on the chain fails for any value. -/
theorem env_assign_none (env : List Scope) (n : String)
    (h : env_get env n = none) : ∀ v, env_assign env n v = none := by
  induction env with
  | nil => intro v; simp [env_assign]
  | cons s parents ih =>
    intro v
    simp only [env_get] at h
    cases hl : lookupBack s.vars n with
    | some w => rw [hl] at h; cases h
    | none =>
      rw [hl] at h
      have hs : setBack s.vars n v = none := (setBack_none_iff s.vars n v).mpr hl
      simp [env_assign, hs, ih h v]

/-- env_assign on a bound name succeeds and coincides with the
pointer-write env_set. -/
theorem env_assign_eq_set (env : List Scope) (n : String) (w v : Value)
    (h : env_get env n = some w) : env_assign env n v = some (env_set env n v) := by
  induction env with
  | nil => simp [env_get] at h
  | cons s parents ih =>
    simp only [env_get] at h
    cases hl : lookupBack s.vars n with
    | some w0 =>
      have hne : ¬setBack s.vars n v = none := by
        rw [setBack_none_iff, hl]; simp
      cases hs : setBack s.vars n v with
      | some vars2 => simp [env_assign, env_set, hs]
      | none => exact absurd hs hne
    | none =>
      rw [hl] at h
      have hs : setBack s.vars n v = none := (setBack_none_iff s.vars n v).mpr hl
      simp [env_assign, env_set, hs, ih h]

/-- After env_set on a bound name, env_get finds the new value. -/
theorem env_set_get_self (env : List Scope) (n : String) (w v : Value)
    (h : env_get env n = some w) : env_get (env_set env n v) n = some v := by
  induction env with
  | nil => simp [env_get] at h
  | cons s parents ih =>
    simp only [env_get] at h
    cases hl : lookupBack s.vars n with
    | some w0 =>
      have hne : ¬setBack s.vars n v = none := by
        rw [setBack_none_iff, hl]; simp
      cases hs : setBack s.vars n v with
      | some vars2 =>
        simp [env_set, hs, env_get, setBack_lookup_self s.vars vars2 n v hs]
      | none => exact absurd hs hne
    | none =>
      rw [hl] at h
      have hs : setBack s.vars n v = none := (setBack_none_iff s.vars n v).mpr hl
      simp [env_set, hs, env_get, hl, ih h]

/-- env_set leaves every other name's lookup unchanged. -/
theorem env_set_get_other (env : List Scope) (n m : String) (v : Value)
    (hm : m ≠ n) : env_get (env_set env n v) m = env_get env m := by
  induction env with
  | nil => simp [env_set]
  | cons s parents ih =>
    cases hs : setBack s.vars n v with
    | some vars2 =>
      simp [env_set, hs, env_get, setBack_lookup_other s.vars vars2 n m v hm hs]
    | none =>
      simp [env_set, hs, env_get, ih]

/-- env_set preserves the shape of the chain: the same scopes, with the
same binding names in the same order, and untouched function tables. -/
theorem env_set_shape (env : List Scope) (n : String) (v : Value) :
    (env_set env n v).map (fun s => s.vars.map Prod.fst)
      = env.map (fun s => s.vars.map Prod.fst)
    ∧ (env_set env n v).map (fun s => s.funcs) = env.map (fun s => s.funcs) := by
  induction env with
  | nil => simp [env_set]
  | cons s parents ih =>
    cases hs : setBack s.vars n v with
    | some vars2 =>
      simp [env_set, hs, setBack_map_fst s.vars vars2 n v hs]
    | none =>
      simp [env_set, hs, ih.1, ih.2]

end Luna

/-- C7: executing x = v when x is bound in no scope on the chain reports a
Name error and leaves the whole state otherwise unchanged — no binding is
created or modified anywhere on the chain and the control-flow flags stay
clear, so execution continues (first conjunct).  When x is bound, the
assignment overwrites exactly the binding that lookup (innermost scope
first, most recently created binding first within a scope) would find: the
updated chain is env_set, lookups of x now yield the assigned value,
lookups of every other name are unchanged, and no binding is added or
removed (second group).  At statement level the bound case rewrites the
environment to env_set with the evaluated value — the deep copy of the C
code, which for pure values is the value itself (third conjunct). -/
theorem C7_assign_semantics :
    (∀ (nt : Luna.NativeTable) (f : Nat) (st : Luna.State) (name : String) (k : Int),
        Luna.env_get st.env name = none →
        Luna.exec_stmt nt (f + 1) st (.assign name (.num k))
          = Luna.report .errName st)
    ∧ (∀ (env : List Luna.Scope) (name : String) (w v : Luna.Value),
        Luna.env_get env name = some w →
        Luna.env_assign env name v = some (Luna.env_set env name v)
        ∧ Luna.env_get (Luna.env_set env name v) name = some v
        ∧ (∀ m, m ≠ name → Luna.env_get (Luna.env_set env name v) m = Luna.env_get env m)
        ∧ (Luna.env_set env name v).map (fun s => s.vars.map Prod.fst)
            = env.map (fun s => s.vars.map Prod.fst)
        ∧ (Luna.env_set env name v).map (fun s => s.funcs) = env.map (fun s => s.funcs))
    ∧ (∀ (nt : Luna.NativeTable) (f : Nat) (st : Luna.State) (name : String)
        (w : Luna.Value) (k : Int),
        Luna.env_get st.env name = some w →
        Luna.exec_stmt nt (f + 2) st (.assign name (.num k))
          = { st with env := Luna.env_set st.env name (.vint k) }) := by
  refine ⟨?_, ?_, ?_⟩
  · intro nt f st name k h
    rw [Luna.exec_stmt]
    have h3 : (Luna.eval_expr nt f st (.num k)).2 = st := by
      cases f <;> simp [Luna.eval_expr]
    have h2 := Luna.env_assign_none st.env name h
    rw [h3]
    simp [h2]
  · intro env name w v h
    exact ⟨Luna.env_assign_eq_set env name w v h,
      Luna.env_set_get_self env name w v h,
      fun m hm => Luna.env_set_get_other env name m v hm,
      (Luna.env_set_shape env name v).1,
      (Luna.env_set_shape env name v).2⟩
  · intro nt f st name w k h
    rw [Luna.exec_stmt]
    have h3 : Luna.eval_expr nt (f + 1) st (.num k) = (.vint k, st) := by
      simp [Luna.eval_expr]
    rw [h3]
    simp [Luna.env_assign_eq_set st.env name w (.vint k) h]

/-- Witness for C7 at concrete states: assigning to unbound y reports a
Name error and leaves the state unchanged; assigning to x (bound twice in
the same scope: the most recent binding is the one lookup sees) succeeds
via env_set; the statement-level equation at a bound name. -/
theorem C7_assign_semantics_witness :
    (Luna.exec_stmt [] 4
        ⟨[⟨[("x", .vint 1)], []⟩], Luna.clearFlags, [], [], [], false⟩
        (.assign "y" (.num 5))
      = Luna.report .errName
          ⟨[⟨[("x", .vint 1)], []⟩], Luna.clearFlags, [], [], [], false⟩)
    ∧ (Luna.env_assign [⟨[("x", .vint 1), ("x", .vint 2)], []⟩] "x" (.vint 9)
        = some (Luna.env_set [⟨[("x", .vint 1), ("x", .vint 2)], []⟩] "x" (.vint 9))
      ∧ Luna.env_get (Luna.env_set [⟨[("x", .vint 1), ("x", .vint 2)], []⟩] "x" (.vint 9)) "x"
          = some (.vint 9)
      ∧ (∀ m, m ≠ "x" →
          Luna.env_get (Luna.env_set [⟨[("x", .vint 1), ("x", .vint 2)], []⟩] "x" (.vint 9)) m
            = Luna.env_get [⟨[("x", .vint 1), ("x", .vint 2)], []⟩] m)
      ∧ (Luna.env_set [⟨[("x", .vint 1), ("x", .vint 2)], []⟩] "x" (.vint 9)).map
            (fun s => s.vars.map Prod.fst)
          = ([⟨[("x", .vint 1), ("x", .vint 2)], []⟩] : List Luna.Scope).map
              (fun s => s.vars.map Prod.fst)
      ∧ (Luna.env_set [⟨[("x", .vint 1), ("x", .vint 2)], []⟩] "x" (.vint 9)).map
            (fun s => s.funcs)
          = ([⟨[("x", .vint 1), ("x", .vint 2)], []⟩] : List Luna.Scope).map
              (fun s => s.funcs))
    ∧ (Luna.exec_stmt [] 5
        ⟨[⟨[("x", .vint 1)], []⟩], Luna.clearFlags, [], [], [], false⟩
        (.assign "x" (.num 7))
      = { env := Luna.env_set [⟨[("x", .vint 1)], []⟩] "x" (.vint 7),
          flags := Luna.clearFlags, output := [], inputLines := [], errors := [],
          ub := false }) :=
  ⟨C7_assign_semantics.1 [] 3
      ⟨[⟨[("x", .vint 1)], []⟩], Luna.clearFlags, [], [], [], false⟩ "y" 5 rfl,
    C7_assign_semantics.2.1 [⟨[("x", .vint 1), ("x", .vint 2)], []⟩] "x" (.vint 2) (.vint 9) rfl,
    C7_assign_semantics.2.2 [] 3
      ⟨[⟨[("x", .vint 1)], []⟩], Luna.clearFlags, [], [], [], false⟩ "x" (.vint 1) 7 rfl⟩

namespace Luna

/-- A native-call writeback over a single copied (non-reference) argument
never touches the environment. -/
theorem write_native_refs_none (env : List Scope) (vs : List Value) :
    write_native_refs env [none] vs = env := by
  cases vs <;> simp [write_native_refs]

end Luna

/-- C3: native-call argument passing.  First conjunct: a bare identifier
argument currently bound to a list is passed by reference — for any native
behaviour, the call returns the native's result and the identifier's
binding afterwards holds the native's post-call value of that argument (in
C the native mutated the shared element storage in place; the repository's
in-place natives, sort and shuffle, permute elements and preserve length).
Second and third conjuncts: for any native behaviour whatsoever, a freshly
constructed list literal argument and a bare identifier bound to a
non-list are evaluated to copies, and the caller's environment is exactly
unchanged after the call. -/
theorem C3_native_list_by_reference :
    (∀ (fnat : List Luna.Value → Luna.Value × List Luna.Value)
        (l : List Luna.Value) (rv outv : Luna.Value),
        fnat [.vlist l] = (rv, [outv]) →
        (Luna.eval_expr [fnat] 8
            ⟨[⟨[("xs", .vlist l), ("g", .vnative 0)], []⟩],
              Luna.clearFlags, [], [], [], false⟩
            (.call "g" [.ident "xs"])).1 = rv
        ∧ Luna.env_get
            (Luna.eval_expr [fnat] 8
              ⟨[⟨[("xs", .vlist l), ("g", .vnative 0)], []⟩],
                Luna.clearFlags, [], [], [], false⟩
              (.call "g" [.ident "xs"])).2.env "xs" = some outv)
    ∧ (∀ (fnat : List Luna.Value → Luna.Value × List Luna.Value)
        (l : List Luna.Value),
        (Luna.eval_expr [fnat] 8
            ⟨[⟨[("xs", .vlist l), ("g", .vnative 0)], []⟩],
              Luna.clearFlags, [], [], [], false⟩
            (.call "g" [.listLit [.num 3, .num 1]])).2.env
          = [⟨[("xs", .vlist l), ("g", .vnative 0)], []⟩])
    ∧ (∀ (fnat : List Luna.Value → Luna.Value × List Luna.Value) (k : Int),
        (Luna.eval_expr [fnat] 8
            ⟨[⟨[("n", .vint k), ("g", .vnative 0)], []⟩],
              Luna.clearFlags, [], [], [], false⟩
            (.call "g" [.ident "n"])).2.env
          = [⟨[("n", .vint k), ("g", .vnative 0)], []⟩]) := by
  refine ⟨?_, ?_, ?_⟩
  · intro fnat l rv outv h
    constructor
    · simp [Luna.eval_expr, Luna.eval_native_args, Luna.env_get, Luna.env_get_func,
        Luna.lookupBack, Luna.nativeAt, h, Luna.write_native_refs, Luna.env_set,
        Luna.setBack]
    · simp [Luna.eval_expr, Luna.eval_native_args, Luna.env_get, Luna.env_get_func,
        Luna.lookupBack, Luna.nativeAt, h, Luna.write_native_refs, Luna.env_set,
        Luna.setBack]
  · intro fnat l
    simp [Luna.eval_expr, Luna.eval_native_args, Luna.eval_list_items, Luna.env_get,
      Luna.env_get_func, Luna.lookupBack, Luna.nativeAt, Luna.write_native_refs_none]
  · intro fnat k
    simp [Luna.eval_expr, Luna.eval_native_args, Luna.env_get, Luna.env_get_func,
      Luna.lookupBack, Luna.nativeAt, Luna.write_native_refs_none]

/-- Witness for C3 with a concrete reversing native and concrete lists. -/
theorem C3_native_list_by_reference_witness :
    ((Luna.eval_expr [Luna.revNative] 8
        ⟨[⟨[("xs", .vlist [.vint 3, .vint 1]), ("g", .vnative 0)], []⟩],
          Luna.clearFlags, [], [], [], false⟩
        (.call "g" [.ident "xs"])).1 = Luna.Value.vnull
      ∧ Luna.env_get
          (Luna.eval_expr [Luna.revNative] 8
            ⟨[⟨[("xs", .vlist [.vint 3, .vint 1]), ("g", .vnative 0)], []⟩],
              Luna.clearFlags, [], [], [], false⟩
            (.call "g" [.ident "xs"])).2.env "xs"
          = some (.vlist [.vint 1, .vint 3]))
    ∧ (Luna.eval_expr [Luna.revNative] 8
        ⟨[⟨[("xs", .vlist [.vint 3, .vint 1]), ("g", .vnative 0)], []⟩],
          Luna.clearFlags, [], [], [], false⟩
        (.call "g" [.listLit [.num 3, .num 1]])).2.env
      = [⟨[("xs", .vlist [.vint 3, .vint 1]), ("g", .vnative 0)], []⟩] :=
  ⟨C3_native_list_by_reference.1 Luna.revNative
      [.vint 3, .vint 1] Luna.Value.vnull (.vlist [.vint 1, .vint 3]) rfl,
    C3_native_list_by_reference.2.1 Luna.revNative [.vint 3, .vint 1]⟩

/-- C1 counterexample: a user-defined function named assert (returning 42)
is the one invoked by assert(true) even though a native assert is also
bound in the environment — the C++ interpreter has no fixed assert
built-in; and a user-defined function named len (returning 99) is the one
invoked by len(1, 2), because the fixed len handler only intercepts calls
with exactly one argument.  Both refute "a user-defined function ... with
one of these six names is never the one invoked". -/
theorem C1_counterexample :
    (Luna.eval_expr [] 10
      ⟨[⟨[("assert", .vnative 0)],
          [("assert", (["x"], [Luna.AstNode.ret (some (.num 42))]))]⟩],
        Luna.clearFlags, [], [], [], false⟩
      (.call "assert" [.boolLit true])).1 = .vint 42
    ∧ (Luna.eval_expr [] 10
      ⟨[⟨[], [("len", (["a", "b"], [Luna.AstNode.ret (some (.num 99))]))]⟩],
        Luna.clearFlags, [], [], [], false⟩
      (.call "len" [.num 1, .num 2])).1 = .vint 99 :=
  ⟨rfl, rfl⟩

/-- C1 as amended: the fixed built-in handlers for len, type, int and
float intercept a call — before user-defined-function lookup and native
lookup — only when it has exactly one argument, and the append handler
always intercepts (two arguments run the append body, any other arity
reports to stderr and yields null).  assert has no fixed handler: an
assert call resolves by user-function lookup first (conjunct six), and
len calls of any other arity likewise fall through to user-function
lookup (conjunct seven). -/
theorem C1_call_resolution_amended :
    (∀ (nt : Luna.NativeTable) (f : Nat) (st : Luna.State) (a : Luna.AstNode),
        Luna.eval_expr nt (f + 1) st (.call "len" [a])
          = (.vint (Luna.lenOf (Luna.eval_expr nt f st a).1),
              (Luna.eval_expr nt f st a).2))
    ∧ (∀ (nt : Luna.NativeTable) (f : Nat) (st : Luna.State) (a : Luna.AstNode),
        Luna.eval_expr nt (f + 1) st (.call "type" [a])
          = (.vstring (Luna.typeName (Luna.eval_expr nt f st a).1),
              (Luna.eval_expr nt f st a).2))
    ∧ (∀ (nt : Luna.NativeTable) (f : Nat) (st : Luna.State) (a : Luna.AstNode),
        Luna.eval_expr nt (f + 1) st (.call "int" [a])
          = (.vint (Luna.intConv (Luna.eval_expr nt f st a).1),
              (Luna.eval_expr nt f st a).2))
    ∧ (∀ (nt : Luna.NativeTable) (f : Nat) (st : Luna.State) (a : Luna.AstNode),
        Luna.eval_expr nt (f + 1) st (.call "float" [a])
          = (.vfloat (Luna.floatConv (Luna.eval_expr nt f st a).1),
              (Luna.eval_expr nt f st a).2))
    ∧ (∀ (nt : Luna.NativeTable) (f : Nat) (st : Luna.State)
        (args : List Luna.AstNode), args.length ≠ 2 →
        Luna.eval_expr nt (f + 1) st (.call "append" args)
          = (.vnull, Luna.report .rawStderr st))
    ∧ (∀ (nt : Luna.NativeTable) (f : Nat) (st : Luna.State) (a b : Luna.AstNode),
        Luna.eval_expr nt (f + 1) st (.call "append" [a, b])
          = Luna.append_builtin nt f st a b)
    ∧ (∀ (nt : Luna.NativeTable) (f : Nat) (st : Luna.State)
        (args : List Luna.AstNode) (fd : Luna.FuncDef),
        Luna.env_get_func st.env "assert" = some fd →
        Luna.eval_expr nt (f + 1) st (.call "assert" args)
          = Luna.run_user_call nt f st fd args)
    ∧ (∀ (nt : Luna.NativeTable) (f : Nat) (st : Luna.State)
        (args : List Luna.AstNode) (fd : Luna.FuncDef), args.length ≠ 1 →
        Luna.env_get_func st.env "len" = some fd →
        Luna.eval_expr nt (f + 1) st (.call "len" args)
          = Luna.run_user_call nt f st fd args) := by
  refine ⟨?_, ?_, ?_, ?_, ?_, ?_, ?_, ?_⟩
  · intro nt f st a; rfl
  · intro nt f st a; rfl
  · intro nt f st a; rfl
  · intro nt f st a; rfl
  · intro nt f st args h
    simp [Luna.eval_expr, h]
  · intro nt f st a b; rfl
  · intro nt f st args fd h
    simp [Luna.eval_expr, h, Luna.run_user_call]
  · intro nt f st args fd hlen h
    simp [Luna.eval_expr, hlen, h, Luna.run_user_call]

/-- Witness for C1's amended theorem at concrete calls. -/
theorem C1_call_resolution_amended_witness :
    (Luna.eval_expr [] 4
        ⟨[⟨[], []⟩], Luna.clearFlags, [], [], [], false⟩
        (.call "len" [.strLit "abc"])
      = (.vint (Luna.lenOf
            (Luna.eval_expr [] 3 ⟨[⟨[], []⟩], Luna.clearFlags, [], [], [], false⟩
              (.strLit "abc")).1),
          (Luna.eval_expr [] 3 ⟨[⟨[], []⟩], Luna.clearFlags, [], [], [], false⟩
            (.strLit "abc")).2))
    ∧ (Luna.eval_expr [] 4
        ⟨[⟨[], []⟩], Luna.clearFlags, [], [], [], false⟩
        (.call "append" [])
      = (.vnull, Luna.report .rawStderr
          ⟨[⟨[], []⟩], Luna.clearFlags, [], [], [], false⟩))
    ∧ (Luna.eval_expr [] 4
        ⟨[⟨[], [("assert", ([], [Luna.AstNode.ret (some (.num 42))]))]⟩],
          Luna.clearFlags, [], [], [], false⟩
        (.call "assert" [.boolLit true])
      = Luna.run_user_call [] 3
          ⟨[⟨[], [("assert", ([], [Luna.AstNode.ret (some (.num 42))]))]⟩],
            Luna.clearFlags, [], [], [], false⟩
          ([], [Luna.AstNode.ret (some (.num 42))]) [.boolLit true]) :=
  ⟨C1_call_resolution_amended.1 [] 3 _ (.strLit "abc"),
    C1_call_resolution_amended.2.2.2.2.1 [] 3 _ [] (by simp),
    C1_call_resolution_amended.2.2.2.2.2.2.1 [] 3 _ [.boolLit true]
      ([], [Luna.AstNode.ret (some (.num 42))]) rfl⟩


namespace Luna

/-- A first-match table lookup whose entries all avoid a given token kind
never returns it. -/
theorem lookup_ne_of_all {α : Type} [BEq α] (l : List (α × TokenType))
    (bad : TokenType) (hl : ∀ p ∈ l, p.2 ≠ bad) :
    ∀ (a : α) (tt : TokenType), l.lookup a = some tt → tt ≠ bad := by
  induction l with
  | nil => intro a tt h; simp [List.lookup] at h
  | cons p rest ih =>
    intro a tt h
    rw [List.lookup] at h
    cases hc : a == p.1 with
    | true =>
      rw [hc] at h
      cases h
      exact hl p (by simp)
    | false =>
      rw [hc] at h
      exact ih (fun q hq => hl q (by simp [hq])) a tt h

/-- The keyword table never produces the T_INVALID sentinel. -/
theorem keywordType_ne_invalid (s : String) : keywordType s ≠ .tINVALID := by
  unfold keywordType
  cases h : keywordTable.lookup s with
  | none => simp
  | some tt =>
    simp only []
    exact lookup_ne_of_all keywordTable .tINVALID (by decide) s tt h

/-- The single-character operator table never produces T_INVALID. -/
theorem charOp_ne_invalid (c : Char) (tt : TokenType) (h : charOp c = some tt) :
    tt ≠ .tINVALID :=
  lookup_ne_of_all charOpTable .tINVALID (by decide) c tt h

end Luna

set_option maxHeartbeats 1000000 in
/-- C8: the lexer's next-token operation is total — it is a plain function
returning a token for every input and state, it never produces the
T_INVALID sentinel (first conjunct), and any character not recognized as
end-of-input, newline, string or char quote, a one- or two-character
operator, a digit, or an identifier start is returned as its own
one-character T_IDENT token with the cursor advanced past it (second
conjunct). -/
theorem C8_lexer_total :
    (∀ L : Luna.Lexer, (Luna.lexer_next L).1.ttype ≠ .tINVALID)
    ∧ (∀ L : Luna.Lexer,
        Luna.lx_at (Luna.lx_skip_ws L) ≠ '\x00' →
        Luna.lx_at (Luna.lx_skip_ws L) ≠ '\n' →
        Luna.lx_at (Luna.lx_skip_ws L) ≠ '"' →
        Luna.lx_at (Luna.lx_skip_ws L) ≠ '\'' →
        ¬(Luna.lx_at (Luna.lx_skip_ws L) = '&'
            ∧ Luna.lx_peek (Luna.lx_skip_ws L) 1 = '&') →
        ¬(Luna.lx_at (Luna.lx_skip_ws L) = '|'
            ∧ Luna.lx_peek (Luna.lx_skip_ws L) 1 = '|') →
        Luna.charOp (Luna.lx_at (Luna.lx_skip_ws L)) = none →
        (Luna.lx_at (Luna.lx_skip_ws L)).isDigit = false →
        (Luna.lx_at (Luna.lx_skip_ws L)).isAlpha = false →
        Luna.lx_at (Luna.lx_skip_ws L) ≠ '_' →
        Luna.lexer_next L
          = (Luna.mkTok .tIDENT (String.singleton (Luna.lx_at (Luna.lx_skip_ws L)))
              (Luna.lx_skip_ws L).line (Luna.lx_skip_ws L).col,
             Luna.lx_advance (Luna.lx_skip_ws L))) := by
  constructor
  · intro L
    unfold Luna.lexer_next
    dsimp only
    by_cases h1 : Luna.lx_at (Luna.lx_skip_ws L) = '\x00'
    · rw [if_pos h1]; simp [Luna.mkTok]
    rw [if_neg h1]
    by_cases h2 : Luna.lx_at (Luna.lx_skip_ws L) = '\n'
    · rw [if_pos h2]; simp [Luna.mkTok]
    rw [if_neg h2]
    by_cases h3 : Luna.lx_at (Luna.lx_skip_ws L) = '"'
    · rw [if_pos h3]; simp
    rw [if_neg h3]
    by_cases h4 : Luna.lx_at (Luna.lx_skip_ws L) = '\''
    · rw [if_pos h4]; simp
    rw [if_neg h4]
    by_cases h5 : Luna.lx_at (Luna.lx_skip_ws L) = '='
        ∧ Luna.lx_peek (Luna.lx_skip_ws L) 1 = '='
    · rw [if_pos h5]; simp [Luna.mkTok]
    rw [if_neg h5]
    by_cases h6 : Luna.lx_at (Luna.lx_skip_ws L) = '!'
        ∧ Luna.lx_peek (Luna.lx_skip_ws L) 1 = '='
    · rw [if_pos h6]; simp [Luna.mkTok]
    rw [if_neg h6]
    by_cases h7 : Luna.lx_at (Luna.lx_skip_ws L) = '<'
        ∧ Luna.lx_peek (Luna.lx_skip_ws L) 1 = '='
    · rw [if_pos h7]; simp [Luna.mkTok]
    rw [if_neg h7]
    by_cases h8 : Luna.lx_at (Luna.lx_skip_ws L) = '>'
        ∧ Luna.lx_peek (Luna.lx_skip_ws L) 1 = '='
    · rw [if_pos h8]; simp [Luna.mkTok]
    rw [if_neg h8]
    by_cases h9 : Luna.lx_at (Luna.lx_skip_ws L) = '+'
        ∧ Luna.lx_peek (Luna.lx_skip_ws L) 1 = '+'
    · rw [if_pos h9]; simp [Luna.mkTok]
    rw [if_neg h9]
    by_cases h10 : Luna.lx_at (Luna.lx_skip_ws L) = '-'
        ∧ Luna.lx_peek (Luna.lx_skip_ws L) 1 = '-'
    · rw [if_pos h10]; simp [Luna.mkTok]
    rw [if_neg h10]
    by_cases h11 : Luna.lx_at (Luna.lx_skip_ws L) = '&'
        ∧ Luna.lx_peek (Luna.lx_skip_ws L) 1 = '&'
    · rw [if_pos h11]; simp [Luna.mkTok]
    rw [if_neg h11]
    by_cases h12 : Luna.lx_at (Luna.lx_skip_ws L) = '|'
        ∧ Luna.lx_peek (Luna.lx_skip_ws L) 1 = '|'
    · rw [if_pos h12]; simp [Luna.mkTok]
    rw [if_neg h12]
    rcases hop : Luna.charOp (Luna.lx_at (Luna.lx_skip_ws L)) with _ | tt
    · dsimp only
      by_cases h13 : (Luna.lx_at (Luna.lx_skip_ws L)).isDigit = true
      · rw [if_pos h13]
        by_cases h14 : Luna.lx_at (Luna.scan_digits_aux
              ((Luna.lx_skip_ws L).src.length - (Luna.lx_skip_ws L).pos + 1)
              (Luna.lx_skip_ws L)) = '.'
            ∧ (Luna.lx_peek (Luna.scan_digits_aux
                ((Luna.lx_skip_ws L).src.length - (Luna.lx_skip_ws L).pos + 1)
                (Luna.lx_skip_ws L)) 1).isDigit = true
        · rw [if_pos h14]; simp
        · rw [if_neg h14]; simp
      · rw [if_neg h13]
        by_cases h15 : (Luna.lx_at (Luna.lx_skip_ws L)).isAlpha = true
            ∨ Luna.lx_at (Luna.lx_skip_ws L) = '_'
        · rw [if_pos h15]
          intro hcon
          exact Luna.keywordType_ne_invalid _ hcon
        · rw [if_neg h15]; simp [Luna.mkTok]
    · dsimp only
      intro hcon
      exact Luna.charOp_ne_invalid _ tt hop hcon
  · intro L h0 hn hq hsq hamp hpipe hop hd ha hu
    have hne : ∀ ch : Char, Luna.charOp ch = none → ch ≠ '=' ∧ ch ≠ '!' ∧ ch ≠ '<'
        ∧ ch ≠ '>' ∧ ch ≠ '+' ∧ ch ≠ '-' := by
      intro ch hch
      refine ⟨?_, ?_, ?_, ?_, ?_, ?_⟩ <;>
        (intro hc; rw [hc] at hch; exact absurd hch (by decide))
    obtain ⟨he, hb, hlt, hgt, hp, hm⟩ := hne _ hop
    unfold Luna.lexer_next
    dsimp only
    rw [if_neg h0, if_neg hn, if_neg hq, if_neg hsq,
      if_neg (fun hc => he hc.1), if_neg (fun hc => hb hc.1),
      if_neg (fun hc => hlt hc.1), if_neg (fun hc => hgt hc.1),
      if_neg (fun hc => hp hc.1), if_neg (fun hc => hm hc.1),
      if_neg hamp, if_neg hpipe, hop]
    rw [if_neg (by simp [hd]), if_neg (by simp [ha, hu])]

/-- Witness for C8's unknown-character conjunct at the input "@x": the at
sign is not recognized by any branch and comes back as its own
one-character T_IDENT token. -/
theorem C8_lexer_total_witness :
    Luna.lexer_next (Luna.lexer_create "@x".data)
      = (Luna.mkTok .tIDENT
          (String.singleton (Luna.lx_at (Luna.lx_skip_ws (Luna.lexer_create "@x".data))))
          (Luna.lx_skip_ws (Luna.lexer_create "@x".data)).line
          (Luna.lx_skip_ws (Luna.lexer_create "@x".data)).col,
         Luna.lx_advance (Luna.lx_skip_ws (Luna.lexer_create "@x".data))) :=
  C8_lexer_total.2 (Luna.lexer_create "@x".data)
    (by decide) (by decide) (by decide) (by decide) (by decide) (by decide)
    (by decide) (by decide) (by decide) (by decide)
